import Mathlib

/-!
Verification development for the grust-gen Rust FFI binding generator
(modules grust/mapping.py and grust/giscanner/transformer.py).

Conventions of the shallow embedding:
* Python strings are Lean String values; all character-level operations are
  carried out on the underlying List Char so that character counting matches
  Python semantics exactly.
* Python regular expressions used by the source are anchored patterns over
  single strings; they are embedded as explicit string functions.  The dot
  metacharacter is modelled as matching any character and the dollar anchor as
  end-of-string; this is faithful for all inputs that contain no newline
  character (C type strings never do), and theorems quantifying over arbitrary
  strings carry a no-newline hypothesis where the distinction could matter.
  Character classes are modelled on the ASCII range, which is the range the
  source manipulates.
* Python exceptions (MappingError, ConsistencyError, ValueError, KeyError,
  assertion failures) are modelled by the Except String monad; the exact
  message text of internal errors is abbreviated where the source interpolates
  reprs of whole objects.
* Stateful methods of RawMapper return the new mapper state explicitly.
* Python dicts that preserve insertion order are association lists.
* The stable list sort of Python (list.sort with a key function) is modelled
  by List.insertionSort, which is stable for a total preorder: an element is
  inserted before the first element that it compares less-or-equal to, so
  elements with equal keys keep their original relative order.
-/

-- Decidable equality of results in the error monad, used to evaluate the
-- embedded operations on concrete inputs.
deriving instance DecidableEq for Except

/-- Modelled from the spec: the TypeDescriptor data model of section 3.  The
giscanner ast module is not among the sources; a descriptor is either a base
type (fundamental and/or named reference, with an optional raw ctype), or a
container (C or GLib array with optional fixed size, linked list, hash map)
wrapping further descriptors, each also carrying an optional raw ctype. -/
inductive TypeDesc where
  | base (targetFundamental : Option String) (targetGiname : Option String)
      (ctype : Option String)
  | array (arrayType : Option String) (size : Option Nat) (elementType : TypeDesc)
      (ctype : Option String)
  | list (name : String) (elementType : TypeDesc) (ctype : Option String)
  | map (keyType : TypeDesc) (valueType : TypeDesc) (ctype : Option String)
  deriving DecidableEq, Repr

/-- Modelled from the spec: the sentinel used by the metadata model for the
container kind tag of C-style arrays (ast.Array.C). -/
def arrayKindC : Option String := none

/-- Accessor for the raw ctype carried by any descriptor. -/
def TypeDesc.ctypeOf : TypeDesc → Option String
  | .base _ _ c => c
  | .array _ _ _ c => c
  | .list _ _ c => c
  | .map _ _ c => c

/-- Accessor for the named (giname) reference of a descriptor; container
descriptors are not named references. -/
def TypeDesc.ginameOf : TypeDesc → Option String
  | .base _ g _ => g
  | _ => none

/-- Modelled from the spec: accessor for the fundamental kind of a descriptor.
Container descriptors carry sentinel fundamentals in the metadata model; the
sentinels are not members of any lookup table used by the mapper, matching the
dispatch order of the source which handles containers before fundamentals. -/
def TypeDesc.fundamentalOf : TypeDesc → Option String
  | .base f _ _ => f
  | .array _ _ _ _ => some ("<array>")
  | .list _ _ _ => some ("<list>")
  | .map _ _ _ => some ("<map>")

/-- Modelled from the spec: equality of type descriptors as used by the
source's comparisons of value types against well-known descriptor constants;
two base descriptors are equal when they agree on the fundamental and named
targets. -/
def typeDescEq : TypeDesc → TypeDesc → Bool
  | .base f1 g1 _, .base f2 g2 _ => f1 = f2 && g1 = g2
  | _, _ => false

/-- Python truthiness of an optional string: None and the empty string are
falsy. -/
def pyTruthy : Option String → Bool
  | none => false
  | some s => !(s.data.isEmpty)

/-- Modelled from the spec: direction tag of a function parameter. -/
inductive ParamDirection where
  | dirIn
  | dirOut
  | dirInout
  deriving DecidableEq, Repr

/-- Modelled from the spec: a function parameter node (ast.Parameter). -/
structure GParameter where
  argname : String
  ptype : TypeDesc
  direction : ParamDirection
  callerAllocates : Bool
  nullable : Bool
  deriving DecidableEq, Repr

/-- Modelled from the spec: a return-value node (ast.Return). -/
structure GReturn where
  rtype : TypeDesc
  nullable : Bool
  deriving DecidableEq, Repr

/-- Modelled from the spec: the declaration kinds a namespace contains
(section 3: Alias, Constant, Enum/Bitfield, Callback, Function, Compound,
Class, Interface).  Only the payloads consulted by the verified code paths are
carried. -/
inductive GNode where
  | alias (target : TypeDesc)
  | constant (valueType : TypeDesc) (value : String)
  | enum
  | bitfield
  | callback (params : List GParameter) (retval : GReturn)
  | function (params : List GParameter) (retval : GReturn)
  | compound (fieldTypes : List (Option TypeDesc))
  | classNode
  | interface
  deriving DecidableEq, Repr

/-- Modelled from the spec: a namespace of the metadata graph (section 3);
identity is the (name, version) pair, and it holds prefix sets and the keyed
declaration table. -/
structure GNamespace where
  name : String
  version : String
  identifierPrefixes : List String
  symbolPrefixes : List String
  ucaseSymbolPrefixes : List String
  names : List (String × GNode)
  deriving DecidableEq, Repr

/-- Namespace declaration lookup (ast.Namespace.get). -/
def GNamespace.get (ns : GNamespace) (name : String) : Option GNode :=
  ns.names.lookup name

/-- Namespace identity comparison: Python compares namespace objects by
identity; within one generation run namespaces are keyed by (name, version),
which the spec designates as the identity (section 3). -/
def nsIdent (a b : GNamespace) : Bool :=
  a.name = b.name && a.version = b.version

/-- Modelled from the spec: a struct/union field node (ast.Field). -/
structure GField where
  name : String
  ftype : Option TypeDesc
  bits : Option Nat
  anonymousNode : Option GNode
  deriving DecidableEq, Repr

/-- Modelled from the spec: a function parameter or return slot
(ast.TypeContainer as consumed by the call-signature helpers). -/
inductive TypeContainer where
  | par (p : GParameter)
  | ret (r : GReturn)
  deriving DecidableEq, Repr

def TypeContainer.typeOf : TypeContainer → TypeDesc
  | .par p => p.ptype
  | .ret r => r.rtype

/- ---------------------------------------------------------------------
Character-level primitives (ASCII fragment of the Python string methods and
regular-expression character classes used by mapping.py).
--------------------------------------------------------------------- -/

/-- ASCII decimal digit (regex class d over the inputs the source handles). -/
def pyDigitChar (c : Char) : Bool :=
  48 ≤ c.toNat && c.toNat ≤ 57

/-- ASCII upper-case letter. -/
def pyUpperChar (c : Char) : Bool :=
  65 ≤ c.toNat && c.toNat ≤ 90

/-- ASCII lower-case letter. -/
def pyLowerCaseChar (c : Char) : Bool :=
  97 ≤ c.toNat && c.toNat ≤ 122

/-- Word character of the regex class w (ASCII fragment):
letters, digits and the underscore. -/
def pyWordChar (c : Char) : Bool :=
  pyDigitChar c || pyUpperChar c || pyLowerCaseChar c || c.toNat = 95

/-- Python str.lower on one character (ASCII fragment). -/
def pyLowerChar (c : Char) : Char :=
  if 65 ≤ c.toNat ∧ c.toNat ≤ 90 then Char.ofNat (c.toNat + 32) else c

/-- Python str.lower (ASCII fragment). -/
def pyLower (s : String) : String :=
  ⟨s.data.map pyLowerChar⟩

/-- Character count of a Python string (len). -/
def pyLen (s : String) : Nat :=
  s.data.length

/-- Python slicing s[n:] by character count. -/
def pyDrop (s : String) (n : Nat) : String :=
  ⟨s.data.drop n⟩

/-- Python str.startswith. -/
def pyStartsWith (s pre : String) : Bool :=
  pre.data.isPrefixOf s.data

/-- Python str.endswith. -/
def pyEndsWith (s suf : String) : Bool :=
  suf.data.reverse.isPrefixOf s.data.reverse

/- ---------------------------------------------------------------------
Identifier and keyword checks (mapping.py: _ident_pat, rust_keywords,
_keyword_pat, is_ident, sanitize_ident).
--------------------------------------------------------------------- -/

/-- Character class of the first identifier character, regex [A-Za-z_]. -/
def identStartChar (c : Char) : Bool :=
  pyUpperChar c || pyLowerCaseChar c || c.toNat = 95

/-- Character class of the remaining identifier characters,
regex [A-Za-z_0-9]. -/
def identChar (c : Char) : Bool :=
  pyUpperChar c || pyLowerCaseChar c || c.toNat = 95 || pyDigitChar c

/-- Anchored match of the identifier pattern of mapping.py. -/
def identPatMatch (s : String) : Bool :=
  match s.data with
  | [] => false
  | c :: rest => identStartChar c && rest.all identChar

/-- Reserved word list of the target language, as listed in mapping.py. -/
def rustKeywords : List String :=
  ["as", "break", "crate", "else", "enum", "extern", "false", "fn", "for",
   "if", "impl", "in", "let", "loop", "match", "mod", "move", "mut", "pub",
   "ref", "return", "static", "self", "Self", "struct", "super", "true",
   "trait", "type", "unsafe", "use", "while", "continue", "box", "const",
   "where", "virtual", "proc", "alignof", "become", "offsetof", "priv",
   "pure", "sizeof", "typeof", "unsized", "yield", "do", "abstract", "final",
   "override", "macro"]

/-- Embedding of is_ident: the name matches the identifier pattern and is not
a keyword (the anchored keyword alternation is exact membership in the list). -/
def isIdent (s : String) : Bool :=
  identPatMatch s && !(rustKeywords.contains s)

/-- Embedding of sanitize_ident: raise ValueError when the identifier pattern
does not match, append an underscore when the name is a keyword. -/
def sanitizeIdent (s : String) : Except String String :=
  if !(identPatMatch s) then
    .error ("the name " ++ s ++ " is not a valid Rust identifier")
  else if rustKeywords.contains s then
    .ok (s ++ "_")
  else
    .ok s

/- ---------------------------------------------------------------------
Crate naming (mapping.py: _nonalpha_pat, _sanitize_crate_name_chars,
sys_crate_name).
--------------------------------------------------------------------- -/

/-- Embedding of _sanitize_crate_name_chars: substitute every non-word
character with an underscore (regex class W applied per character), then
lower-case the result. -/
def sanitizeCrateChars (s : String) : String :=
  ⟨(s.data.map (fun c => if pyWordChar c then c else '_')).map pyLowerChar⟩

/-- Embedding of sys_crate_name: sanitized name, underscore, sanitized
version, and the fixed suffix. -/
def sysCrateName (ns : GNamespace) : String :=
  sanitizeCrateChars ns.name ++ "_" ++ sanitizeCrateChars ns.version ++ "_sys"

/- ---------------------------------------------------------------------
Fundamental type tables (mapping.py: ffi_basic_types, libc_types,
unsigned_types, _string_ctypes) and the well-known descriptor constants of
the metadata model they refer to.
--------------------------------------------------------------------- -/

/-- Embedding of the ffi_basic_types table, in its construction order: the
identity entries of the loop, the sized integer entries, the char-pointer
constness entries, and the workaround entries for gobject-introspection bug
756009. -/
def ffiBasicTypes : List (String × String) :=
  [("gpointer", "gpointer"), ("gconstpointer", "gconstpointer"),
   ("gboolean", "gboolean"), ("gchar", "gchar"), ("gshort", "gshort"),
   ("gushort", "gushort"), ("gint", "gint"), ("guint", "guint"),
   ("glong", "glong"), ("gulong", "gulong"), ("gsize", "gsize"),
   ("gssize", "gssize"), ("gintptr", "gintptr"), ("guintptr", "guintptr"),
   ("gfloat", "gfloat"), ("gdouble", "gdouble"), ("gunichar", "gunichar"),
   ("GType", "GType"),
   ("gint8", "i8"), ("guint8", "u8"),
   ("gint16", "i16"), ("guint16", "u16"),
   ("gint32", "i32"), ("guint32", "u32"),
   ("gint64", "i64"), ("guint64", "u64"),
   ("const gchar*", "*const gchar"), ("const char*", "*const gchar"),
   ("gchar**", "*mut *mut gchar"), ("char**", "*mut *mut gchar"),
   ("const gchar**", "*mut *const gchar"), ("const char**", "*mut *const gchar"),
   ("const gchar* const*", "*const *const gchar"),
   ("const char* const*", "*const *const gchar")]

/-- Embedding of the libc_types table. -/
def libcTypes : List (String × String) :=
  [("size_t", "size_t"), ("ssize_t", "ssize_t"), ("time_t", "time_t"),
   ("off_t", "off_t"), ("pid_t", "pid_t"), ("uid_t", "uid_t"),
   ("gid_t", "gid_t"), ("dev_t", "dev_t"), ("socklen_t", "socklen_t"),
   ("long long", "c_longlong"), ("unsigned long long", "c_ulonglong")]

/-- Modelled from the spec: the well-known fundamental descriptor constants of
the metadata model referenced by mapping.py; each is a base descriptor whose
fundamental tag and raw ctype are the conventional GLib spelling. -/
def typeBOOLEAN : TypeDesc := .base (some ("gboolean")) none (some ("gboolean"))

def typeUSHORT : TypeDesc := .base (some ("gushort")) none (some ("gushort"))

def typeUINT : TypeDesc := .base (some ("guint")) none (some ("guint"))

def typeULONG : TypeDesc := .base (some ("gulong")) none (some ("gulong"))

def typeUINT8 : TypeDesc := .base (some ("guint8")) none (some ("guint8"))

def typeUINT16 : TypeDesc := .base (some ("guint16")) none (some ("guint16"))

def typeUINT32 : TypeDesc := .base (some ("guint32")) none (some ("guint32"))

def typeUINT64 : TypeDesc := .base (some ("guint64")) none (some ("guint64"))

def typeSIZE : TypeDesc := .base (some ("gsize")) none (some ("gsize"))

def typeUINTPTR : TypeDesc := .base (some ("guintptr")) none (some ("guintptr"))

def typeUNICHAR : TypeDesc := .base (some ("gunichar")) none (some ("gunichar"))

def typeLONGULONG : TypeDesc :=
  .base (some ("unsigned long long")) none (some ("unsigned long long"))

def typeINT8 : TypeDesc := .base (some ("gint8")) none (some ("gint8"))

def typeNONE : TypeDesc := .base (some ("none")) none (some ("void"))

/-- Embedding of the unsigned_types tuple of mapping.py, in source order. -/
def unsignedTypes : List TypeDesc :=
  [typeUSHORT, typeUINT, typeULONG,
   typeUINT8, typeUINT16, typeUINT32, typeUINT64,
   typeSIZE, typeUINTPTR, typeUNICHAR, typeLONGULONG]

/-- Embedding of the _string_ctypes set. -/
def stringCtypes : List String :=
  ["gchar*", "const gchar*", "char*", "const char*"]

/- ---------------------------------------------------------------------
Constant values (mapping.py: _bytestring_escape_pat, escape_bytestring,
_integer_constant_pat, validate_integer_value, SizedIntTypeInfo,
sized_int_types, map_constant_value).
--------------------------------------------------------------------- -/

/-- Embedding of escape_bytestring: prepend a backslash to every double quote
and backslash. -/
def escapeBytestring (s : String) : String :=
  ⟨s.data.flatMap (fun c => if c = '"' ∨ c = '\\' then ['\\', c] else [c])⟩

/-- Anchored match of the integer constant pattern of mapping.py: an optional
minus sign followed by one or more decimal digits. -/
def intLiteralMatch (s : String) : Bool :=
  match s.data with
  | '-' :: rest => !rest.isEmpty && rest.all pyDigitChar
  | l => !l.isEmpty && l.all pyDigitChar

/-- Embedding of validate_integer_value: raise MappingError when the literal
does not match the integer constant pattern. -/
def validateIntegerValue (s : String) : Except String Unit :=
  if !(intLiteralMatch s) then
    .error ("Unexpected integer constant value " ++ s)
  else
    .ok ()

/-- Numeric value of a digit string, as computed by the Python int builtin on
validated input. -/
def decDigitsVal (l : List Char) : Nat :=
  l.foldl (fun a c => a * 10 + (c.toNat - 48)) 0

/-- Python int applied to a literal matching the integer constant pattern. -/
def pyIntOfString (s : String) : Int :=
  match s.data with
  | '-' :: rest => -(decDigitsVal rest : Int)
  | l => (decDigitsVal l : Int)

/-- Embedding of the SizedIntTypeInfo class state. -/
structure SizedIntTypeInfo where
  bitWidth : Nat
  signed : Bool
  deriving DecidableEq, Repr

/-- Embedding of SizedIntTypeInfo.fits on the numeric value (the Python code
coerces its string input with int before the range test). -/
def SizedIntTypeInfo.fits (ti : SizedIntTypeInfo) (v : Int) : Bool :=
  if ti.signed then
    decide (-(2 ^ (ti.bitWidth - 1) : Int) ≤ v ∧ v ≤ 2 ^ (ti.bitWidth - 1) - 1)
  else
    decide ((0 : Int) ≤ v ∧ v ≤ 2 ^ ti.bitWidth - 1)

/-- Embedding of SizedIntTypeInfo.convert: a fitting literal is returned
unchanged; a signed target whose value lies within the unsigned range of the
bit width gets a twos-complement conversion; anything else is passed
through. -/
def SizedIntTypeInfo.convert (ti : SizedIntTypeInfo) (inValue : String) : String :=
  let value : Int := pyIntOfString inValue
  if ti.fits value then
    inValue
  else if ti.signed && decide (value ≤ 2 ^ ti.bitWidth - 1) then
    toString (value - 2 ^ ti.bitWidth)
  else
    inValue

/-- Embedding of the sized_int_types table built by SizedIntTypeInfo._get_map,
in its loop order over the widths 8, 16, 32, 64. -/
def sizedIntTypes : List (String × SizedIntTypeInfo) :=
  [("gint8", ⟨8, true⟩), ("guint8", ⟨8, false⟩),
   ("gint16", ⟨16, true⟩), ("guint16", ⟨16, false⟩),
   ("gint32", ⟨32, true⟩), ("guint32", ⟨32, false⟩),
   ("gint64", ⟨64, true⟩), ("guint64", ⟨64, false⟩)]

/-- Embedding of map_constant_value: boolean constants map to the FALSE/TRUE
spellings, string-typed constants become escaped NUL-terminated bytestrings,
sized-integer-typed constants are validated and converted, other
unsigned-typed constants with a negative value are cast from i64, and
everything else passes through. -/
def mapConstantValue (valueType : TypeDesc) (value : String) : Except String String :=
  if typeDescEq valueType typeBOOLEAN then
    if value = "false" then .ok ("FALSE")
    else if value = "true" then .ok ("TRUE")
    else .error ("Unexpected boolean constant value " ++ value)
  else if (match valueType.ctypeOf with
           | some c => stringCtypes.contains c
           | none => false) then
    .ok ("b\"" ++ escapeBytestring value ++ "\\0\"")
  else if (match valueType.fundamentalOf with
           | some f => (sizedIntTypes.lookup f).isSome
           | none => false) then
    match validateIntegerValue value with
    | .error e => .error e
    | .ok _ =>
      match valueType.fundamentalOf with
      | some f =>
        match sizedIntTypes.lookup f with
        | some typeinfo => .ok (typeinfo.convert value)
        | none => .ok value
      | none => .ok value
  else if unsignedTypes.any (fun u => typeDescEq valueType u) then
    match validateIntegerValue value with
    | .error e => .error e
    | .ok _ =>
      if pyIntOfString value < 0 then
        .ok (value ++ "i64 as " ++
             (match valueType.fundamentalOf with
              | some f => f
              | none => ""))
      else
        .ok value
  else
    .ok value

/- ---------------------------------------------------------------------
Pointer algebra (mapping.py: _ptr_const_patterns, _ptr_mut_pattern,
_unwrap_pointer_ctype, _volatile_pattern, _strip_volatile,
_unwrap_call_signature_ctype, _is_fixed_size_array).
--------------------------------------------------------------------- -/

/-- Space predicate used by the pointer patterns. -/
def isSpaceChar (c : Char) : Bool := c = ' '

/-- Reversed character list of the const token. -/
def constTokRev : List Char := ['t', 's', 'n', 'o', 'c']

/-- Character list of the const token. -/
def constTok : List Char := ['c', 'o', 'n', 's', 't']

/-- Anchored match of the first const-pointer pattern: a greedy group ending
in a non-space character, one or more spaces, the const token, optional
spaces, and a final star.  The greedy group is everything before the space
run that precedes the last const token before the trailing star. -/
def matchConst1 (l : List Char) : Option (List Char) :=
  match l.reverse with
  | c :: r =>
    if c = '*' then
      let r2 := r.dropWhile isSpaceChar
      if constTokRev.isPrefixOf r2 then
        match r2.drop 5 with
        | c4 :: r4 =>
          if c4 = ' ' then
            let d := r4.dropWhile isSpaceChar
            if d.isEmpty then none else some d.reverse
          else none
        | [] => none
      else none
    else none
  | [] => none

/-- Anchored match of the second const-pointer pattern: the const token, one
or more spaces, a greedy group ending in a character that is neither a star
nor a space, optional spaces, and a final star. -/
def matchConst2 (l : List Char) : Option (List Char) :=
  if constTok.isPrefixOf l then
    match l.drop 5 with
    | c :: r =>
      if c = ' ' then
        let r1 := r.dropWhile isSpaceChar
        match r1.reverse with
        | c2 :: r2 =>
          if c2 = '*' then
            let d := r2.dropWhile isSpaceChar
            match d with
            | [] => none
            | c3 :: _ => if c3 = '*' then none else some d.reverse
          else none
        | [] => none
      else none
    | [] => none
  else none

/-- Anchored match of the mutable-pointer pattern: a greedy group ending in a
non-space character, optional spaces, and a final star. -/
def matchMut (l : List Char) : Option (List Char) :=
  match l.reverse with
  | c :: r =>
    if c = '*' then
      let d := r.dropWhile isSpaceChar
      if d.isEmpty then none else some d.reverse
    else none
  | [] => none

/-- Embedding of _unwrap_pointer_ctype: with const allowed the two const
patterns are tried first and yield the const-pointer tag; the mutable pattern
yields the mutable-pointer tag; otherwise a MappingError is raised whose
message depends on whether const was allowed. -/
def unwrapPointerCtype (ctype : String) (allowConst : Bool) :
    Except String (String × String) :=
  if allowConst then
    match matchConst1 ctype.data with
    | some d => .ok ("*const ", ⟨d⟩)
    | none =>
      match matchConst2 ctype.data with
      | some d => .ok ("*const ", ⟨d⟩)
      | none =>
        match matchMut ctype.data with
        | some d => .ok ("*mut ", ⟨d⟩)
        | none => .error ("expected pointer syntax in C type " ++ ctype)
  else
    match matchMut ctype.data with
    | some d => .ok ("*mut ", ⟨d⟩)
    | none => .error ("expected non-const pointer syntax in C type " ++ ctype)

/-- Embedding of _strip_volatile: remove one leading volatile token followed
by one or more spaces; the greedy space run leaves the base type starting at
its first non-space character. -/
def stripVolatile (ctype : String) : String :=
  if ("volatile ").data.isPrefixOf ctype.data then
    ⟨(ctype.data.drop 8).dropWhile isSpaceChar⟩
  else
    ctype

/-- Embedding of _unwrap_call_signature_ctype: an out or inout parameter whose
caller does not allocate has one non-const pointer layer stripped (errors are
re-raised with the parameter name prepended); every other slot keeps its
declared ctype; the volatile qualifier is stripped from the result.  A slot
with no C type raises a MappingError naming the parameter. -/
def unwrapCallSignatureCtype (tc : TypeContainer) :
    Except String (String × String) :=
  match tc.typeOf.ctypeOf with
  | none =>
    .error ("parameter " ++
            (match tc with
             | .par p => p.argname
             | .ret _ => "<return>") ++ ": C type attribute is missing")
  | some ctype =>
    match tc with
    | .par p =>
      if (p.direction = .dirOut ∨ p.direction = .dirInout) ∧
          p.callerAllocates = false then
        match unwrapPointerCtype ctype false with
        | .ok (pre, base) => .ok (pre, stripVolatile base)
        | .error e => .error ("parameter " ++ p.argname ++ ": " ++ e)
      else
        .ok ("", stripVolatile ctype)
    | .ret _ => .ok ("", stripVolatile ctype)

/-- Embedding of _is_fixed_size_array: a C-style array descriptor with an
explicit size. -/
def isFixedSizeArray : TypeDesc → Bool
  | .array k (some _) _ _ => k = arrayKindC
  | _ => false

/-- Modelled from the spec: the wrap_pointer operation of the testable
property in section 8 (round trip with unwrap_pointer); it is not part of the
sources.  Wrapping builds the mutable pointer spelling by appending a star. -/
def wrapPointerMut (t : String) : String := t ++ "*"

/-- Modelled from the spec: const-pointer wrapping with the leading const
spelling. -/
def wrapPointerConstPre (t : String) : String := "const " ++ t ++ "*"

/-- Modelled from the spec: const-pointer wrapping with the trailing const
spelling. -/
def wrapPointerConstPost (t : String) : String := t ++ " const *"

/- ---------------------------------------------------------------------
Namespace resolver (transformer.py: Transformer._iter_namespaces,
_sort_matches, _split_c_string_for_namespace_matches,
split_ctype_namespaces, split_csymbol_namespaces, split_csymbol,
lookup_giname, resolve_aliases).
--------------------------------------------------------------------- -/

/-- Embedding of the Transformer state used by the verified paths.  The
optional external renaming filters of the source are subprocess invocations
and are not part of the model; the embedded functions correspond to a
transformer constructed without filter commands. -/
structure Transformer where
  tnamespace : GNamespace
  parsedIncludes : List (String × GNamespace)
  acceptUnprefixed : Bool
  deriving DecidableEq, Repr

/-- Embedding of _iter_namespaces: the currently-scanned namespace first,
then the parsed includes in insertion order. -/
def Transformer.iterNamespaces (t : Transformer) : List GNamespace :=
  t.tnamespace :: t.parsedIncludes.map Prod.snd

/-- Embedding of the per-namespace prefix-choice of
_split_c_string_for_namespace_matches: identifier prefixes for type names,
case-dependent symbol prefixes for symbols.  The symbol case inspects the
first character of the name. -/
def choosePrefixes (isIdentifier : Bool) (name : String)
    (ns : GNamespace) : List String :=
  if isIdentifier then ns.identifierPrefixes
  else if (match name.data.head? with
           | some c => pyUpperChar c
           | none => false) then ns.ucaseSymbolPrefixes
  else ns.symbolPrefixes

/-- Embedding of the inner prefix loop: the first prefix (adjusted with a
trailing underscore for symbols) that is a leading substring of the name
yields the stripped suffix and the adjusted prefix length. -/
def findPrefixMatch (isIdentifier : Bool) (name : String) :
    List String → Option (String × Nat)
  | [] => none
  | p :: rest =>
    let p2 := if !isIdentifier && !(pyEndsWith p ("_")) then p ++ "_" else p
    if pyStartsWith name p2 then
      some (pyDrop name (pyLen p2), pyLen p2)
    else
      findPrefixMatch isIdentifier name rest

/-- Embedding of the namespace scan of _split_c_string_for_namespace_matches:
namespaces with a matching prefix are collected as ranked candidates, and
namespaces declaring no prefix are collected separately as the last-resort
list, both in iteration order. -/
def collectMatches (isIdentifier : Bool) (name : String) :
    List GNamespace → List (GNamespace × String × Nat) × List GNamespace
  | [] => ([], [])
  | ns :: rest =>
    let acc := collectMatches isIdentifier name rest
    let prefixes := choosePrefixes isIdentifier name ns
    if prefixes.isEmpty then
      (acc.1, ns :: acc.2)
    else
      match findPrefixMatch isIdentifier name prefixes with
      | some (stripped, plen) => ((ns, stripped, plen) :: acc.1, acc.2)
      | none => acc

/-- Embedding of the _sort_matches key: current-namespace entries get the
first component one (sorting last), everything else zero; the second
component is the matched prefix length. -/
def sortMatchKey (t : Transformer) (v : GNamespace × String × Nat) : Nat × Nat :=
  (if nsIdent v.1 t.tnamespace then 1 else 0, v.2.2)

/-- Lexicographic less-or-equal on the sort keys. -/
def keyLe (a b : Nat × Nat) : Prop :=
  a.1 < b.1 ∨ (a.1 = b.1 ∧ a.2 ≤ b.2)

instance (a b : Nat × Nat) : Decidable (keyLe a b) := by
  unfold keyLe
  infer_instance

/-- Order on candidate matches induced by the _sort_matches key. -/
def matchLe (t : Transformer) (x y : GNamespace × String × Nat) : Prop :=
  keyLe (sortMatchKey t x) (sortMatchKey t y)

instance (t : Transformer) : DecidableRel (matchLe t) := by
  intro x y
  unfold matchLe
  infer_instance

/-- Embedding of _split_c_string_for_namespace_matches without external
filters: on a ranked match the candidates are stably sorted so that the
current namespace sorts last; with no ranked match the unprefixed-acceptance
flag or a verbatim member of an unprefixed namespace may still resolve;
otherwise an unknown-namespace ValueError is raised.  The symbol form indexes
the first character of the name, raising an IndexError on an empty name. -/
def splitCStringForNamespaceMatches (t : Transformer) (name : String)
    (isIdentifier : Bool) : Except String (List (GNamespace × String)) :=
  if !isIdentifier ∧ name.data.isEmpty then
    .error ("IndexError: string index out of range")
  else
    let acc := collectMatches isIdentifier name (t.iterNamespaces)
    if !acc.1.isEmpty then
      .ok (((acc.1).insertionSort (matchLe t)).map (fun v => (v.1, v.2.1)))
    else if t.acceptUnprefixed then
      .ok [(t.tnamespace, name)]
    else
      match acc.2.find? (fun ns => (ns.get name).isSome) with
      | some ns => .ok [(ns, name)]
      | none =>
        .error ("Unknown namespace for " ++
                (if isIdentifier then "identifier " else "symbol ") ++ name)

/-- Embedding of split_ctype_namespaces. -/
def Transformer.splitCtypeNamespaces (t : Transformer) (ident : String) :
    Except String (List (GNamespace × String)) :=
  splitCStringForNamespaceMatches t ident true

/-- Embedding of split_csymbol_namespaces. -/
def Transformer.splitCsymbolNamespaces (t : Transformer) (symbol : String) :
    Except String (List (GNamespace × String)) :=
  splitCStringForNamespaceMatches t symbol false

/-- Embedding of split_csymbol: the last element of the candidate list is the
single best match. -/
def Transformer.splitCsymbol (t : Transformer) (symbol : String) :
    Except String (GNamespace × String) :=
  match splitCStringForNamespaceMatches t symbol false with
  | .error e => .error e
  | .ok ms =>
    match ms.getLast? with
    | some m => .ok m
    | none => .error ("IndexError: list index out of range")

/-- Split of a qualified name at its first dot. -/
def splitFirstDot (l : List Char) : Option (List Char × List Char) :=
  match l with
  | [] => none
  | c :: rest =>
    if c = '.' then some ([], rest)
    else
      match splitFirstDot rest with
      | some (a, b) => some (c :: a, b)
      | none => none

/-- Embedding of lookup_giname: an unqualified name is looked up in the
current namespace; a qualified name is looked up in the current namespace when
the qualifier names it, through the deprecated identifier-prefix fallback when
the qualifier is an identifier prefix that was never parsed as an include, and
in the parsed include otherwise, raising a KeyError for an unknown include.
The namespace in which the declaration was found is returned with it,
modelling the namespace back-reference the source reads off the node. -/
def Transformer.lookupGiname (t : Transformer) (name : String) :
    Except String (Option (GNamespace × GNode)) :=
  match splitFirstDot name.data with
  | none => .ok ((t.tnamespace.get name).map (fun nd => (t.tnamespace, nd)))
  | some (nsChars, rest) =>
    let ns : String := ⟨nsChars⟩
    let giname : String := ⟨rest⟩
    if ns = t.tnamespace.name then
      .ok ((t.tnamespace.get giname).map (fun nd => (t.tnamespace, nd)))
    else if t.tnamespace.identifierPrefixes.contains ns ∧
        (t.parsedIncludes.lookup ns).isNone then
      .ok ((t.tnamespace.get giname).map (fun nd => (t.tnamespace, nd)))
    else
      match t.parsedIncludes.lookup ns with
      | none => .error ("KeyError: " ++ ns)
      | some inc => .ok ((inc.get giname).map (fun nd => (inc, nd)))

/-- State of the resolve_aliases dereferencing loop: the loop variable holds
either a declaration node, a bare type descriptor (after stepping through an
alias whose target is fundamental), or the Python None produced by a failed
giname lookup. -/
inductive AliasState where
  | node (nd : GNode)
  | ty (t : TypeDesc)
  | missing
  deriving DecidableEq, Repr

/-- Embedding of resolve_aliases as a fuel-indexed loop.  The source runs an
unbounded while loop; one unit of fuel pays for one execution of the loop
body, and an ok-none result means the loop was still running when the fuel ran
out.  An alias whose target carries a giname is dereferenced through
lookup_giname; an alias whose target is fundamental steps to the bare target
descriptor; any other state leaves the loop. -/
def resolveAliasesFuel (t : Transformer) : Nat → AliasState →
    Except String (Option AliasState)
  | fuel, st =>
    match st with
    | .node nd =>
      match nd with
      | .alias target =>
        match fuel with
        | 0 => .ok none
        | fuel' + 1 =>
          match target.ginameOf with
          | some g =>
            match t.lookupGiname g with
            | .error e => .error e
            | .ok (some (_, nd2)) => resolveAliasesFuel t fuel' (.node nd2)
            | .ok none => resolveAliasesFuel t fuel' .missing
          | none =>
            match target.fundamentalOf with
            | some _ => resolveAliasesFuel t fuel' (.ty target)
            | none => .ok (some (.node (.alias target)))
      | _ => .ok (some (.node nd))
    | .ty td => .ok (some (.ty td))
    | .missing => .ok (some .missing)

/- ---------------------------------------------------------------------
Crates and the mapper state (mapping.py: Crate, RawMapper.__init__,
_create_crate, _register_namespace, extern_crates, _lookup_giname).
--------------------------------------------------------------------- -/

/-- Embedding of the Crate record: canonical name, local import alias, and
the namespace it corresponds to (absent for the synthetic foreign-primitives
crate). -/
structure Crate where
  name : String
  localName : String
  cnamespace : Option GNamespace
  deriving DecidableEq, Repr

/-- Embedding of Crate.__init__: the constructor asserts that the crate name
and the local alias are valid identifiers, and the alias defaults to the
name. -/
def mkCrate (name : String) (localName : Option String)
    (ns : Option GNamespace) : Except String Crate :=
  if !(isIdent name) then
    .error ("AssertionError: crate name " ++ name ++ " is not an identifier")
  else
    match localName with
    | some l =>
      if !(isIdent l) then
        .error ("AssertionError: crate import name " ++ l ++
                " is not an identifier")
      else
        .ok ⟨name, l, ns⟩
    | none => .ok ⟨name, name, ns⟩

/-- Crate identity comparison: Python compares crate objects by identity;
within one run crates are identified by their canonical name, which the spec
designates as the crate identity (section 3). -/
def crateEq (a b : Crate) : Bool :=
  a.name = b.name

/-- Embedding of the RawMapper state: the home crate, the associated
transformer, the import registry mapping namespace names to crates in
registration order, and the lazily created foreign-primitives crate. -/
structure RawMapper where
  crate : Crate
  transformer : Transformer
  externCrateTable : List (String × Crate)
  crateLibc : Option Crate
  deriving DecidableEq, Repr

/-- Embedding of RawMapper._create_crate: conventional sys crate name, local
alias from the lower-cased namespace name sanitized as an identifier, with the
well-known foreign-primitives module name avoided. -/
def createCrate (ns : GNamespace) : Except String Crate :=
  let name := sysCrateName ns
  match sanitizeIdent (pyLower ns.name) with
  | .error e => .error e
  | .ok l0 =>
    let localName := if l0 = "libc" then "libc_" else l0
    mkCrate name (some localName) (some ns)

/-- Embedding of RawMapper._register_namespace: the home namespace
contributes no import; a namespace already in the registry contributes its
registered crate; otherwise a new crate is created and appended to the
registry. -/
def registerNamespace (m : RawMapper) (ns : GNamespace) :
    Except String (List Crate × RawMapper) :=
  if (match m.crate.cnamespace with
      | some h => nsIdent ns h
      | none => false) then
    .ok ([], m)
  else
    match m.externCrateTable.lookup ns.name with
    | some crate => .ok ([crate], m)
    | none =>
      match createCrate ns with
      | .error e => .error e
      | .ok crate =>
        .ok ([crate],
             ⟨m.crate, m.transformer,
              m.externCrateTable ++ [(ns.name, crate)], m.crateLibc⟩)

/-- Order on crates by canonical name, the key of the extern-crate
enumeration. -/
def crateNameLe (a b : Crate) : Prop :=
  a.name ≤ b.name

instance : DecidableRel crateNameLe := by
  intro a b
  unfold crateNameLe
  infer_instance

instance : IsTotal Crate crateNameLe :=
  ⟨fun a b => le_total a.name b.name⟩

instance : IsTrans Crate crateNameLe :=
  ⟨fun _ _ _ hab hbc => le_trans hab hbc⟩

/-- Embedding of RawMapper.extern_crates: the registered crates sorted
alphabetically by crate name (stable sort of the registry values), followed by
the foreign-primitives crate when it was created. -/
def externCrates (m : RawMapper) : List Crate :=
  (List.insertionSort crateNameLe (m.externCrateTable.map Prod.snd)) ++
    (match m.crateLibc with
     | some libc => [libc]
     | none => [])

/-- Embedding of RawMapper._lookup_giname: a qualified name resolves to the
home crate or an already-registered extern crate (asserting it was resolved),
an unqualified name to the home crate; the unqualified part must be a member
of the crate namespace. -/
def lookupGinameCrate (m : RawMapper) (giname : String) :
    Except String (Crate × String) :=
  let pick : Except String (Crate × String) :=
    match splitFirstDot giname.data with
    | some (nsChars, rest) =>
      let nsName : String := ⟨nsChars⟩
      let nqname : String := ⟨rest⟩
      if (match m.crate.cnamespace with
          | some h => nsName == h.name
          | none => false) then
        .ok (m.crate, nqname)
      else
        match m.externCrateTable.lookup nsName with
        | some crate => .ok (crate, nqname)
        | none =>
          .error ("AssertionError: " ++ giname ++
                  " refers to an unresolved namespace; has the type been resolved?")
    | none => .ok (m.crate, giname)
  match pick with
  | .error e => .error e
  | .ok (crate, nqname) =>
    match crate.cnamespace with
    | none => .error ("AttributeError: crate has no namespace")
    | some cns =>
      if (cns.get nqname).isSome then
        .ok (crate, nqname)
      else
        .error ("AssertionError: " ++ nqname ++ " is not found in namespace " ++
                cns.name)

/- ---------------------------------------------------------------------
Pass 2 mapping (mapping.py: RawMapper._map_type, _map_fundamental_type,
_map_introspected_type, _map_array, _map_list_type, _map_hash_table,
map_field_type, map_parameter_type, map_return_type, map_callback).
--------------------------------------------------------------------- -/

/-- Embedding of RawMapper._map_fundamental_type: a host-platform-dependent
ctype renders as a qualified reference into the foreign-primitives crate
(asserting that it was resolved first), a basic FFI type renders through the
fixed table, the string kinds render as a mutable char pointer, and anything
else is a MappingError. -/
def mapFundamentalType (m : RawMapper) (typename : String)
    (ctype : Option String) : Except String String :=
  match (match ctype with
         | some c => libcTypes.lookup c
         | none => none) with
  | some libcName =>
    match m.crateLibc with
    | none =>
      .error ("AssertionError: the fundamental type " ++ typename ++
              " should have been resolved first")
    | some libc => .ok (libc.localName ++ "::" ++ libcName)
  | none =>
    match ffiBasicTypes.lookup typename with
    | some v => .ok v
    | none =>
      if typename = "utf8" ∨ typename = "filename" then
        .ok ("*mut gchar")
      else
        .error ("unsupported fundamental type " ++ typename)

/-- Embedding of the bounded pointer-peeling loop of
_map_introspected_type: up to the given number of layers, a ctype ending in a
star has one pointer layer unwrapped, accumulating the pointer markers in
unwrap order. -/
def peelPointerLayers : Nat → String → String → Except String (String × String)
  | 0, ct, acc => .ok (acc, ct)
  | n + 1, ct, acc =>
    if pyEndsWith ct ("*") then
      match unwrapPointerCtype ct true with
      | .error e => .error e
      | .ok (layer, ct2) => peelPointerLayers n ct2 (acc ++ layer)
    else
      .ok (acc, ct)

/-- Embedding of RawMapper._map_introspected_type: resolve the crate and
unqualified name, peel up to two pointer layers off the ctype (a missing
ctype stands in for an anonymous generated name), require the base to be a
valid identifier, qualify with the crate alias outside the home crate, and
wrap nullable callbacks in an optional type. -/
def mapIntrospectedType (m : RawMapper) (giname : String)
    (ctype : Option String) (nullable : Bool) : Except String String :=
  match lookupGinameCrate m giname with
  | .error e => .error e
  | .ok (crate, name) =>
    match (match ctype with
           | none => Except.ok ("", name)
           | some ct => peelPointerLayers 2 ct ("")) with
    | .error e => .error e
    | .ok (ptr, base) =>
      if !(isIdent base) then
        .error ("C type " ++ base ++ " (" ++ giname ++
                ") does not map to a valid Rust identifier")
      else
        let syn :=
          if crateEq crate m.crate then ptr ++ base
          else ptr ++ crate.localName ++ "::" ++ base
        if nullable then
          match crate.cnamespace with
          | none => .error ("AttributeError: crate has no namespace")
          | some cns =>
            match cns.get name with
            | none => .error ("KeyError: " ++ name)
            | some (.callback _ _) => .ok ("Option<" ++ syn ++ ">")
            | some _ => .ok syn
        else
          .ok syn

/-- Embedding of RawMapper._map_list_type: unwrap the pointer, assert the
GLib-style pairing of the logical container name and its ctype, and render
the pointer-qualified introspected container type. -/
def mapListType (m : RawMapper) (typename : String) (ctype : Option String) :
    Except String String :=
  match ctype with
  | none => .error ("TypeError: expected string in pointer unwrap")
  | some ct =>
    match unwrapPointerCtype ct true with
    | .error e => .error e
    | .ok (rustPtr, itemCtype) =>
      if !(pyStartsWith typename ("GLib.") ∧ pyStartsWith itemCtype ("G") ∧
           pyDrop typename 5 = pyDrop itemCtype 1) then
        .error ("AssertionError: the list GI type " ++ typename ++
                " and C type " ++ itemCtype ++ " do not match")
      else
        match mapIntrospectedType m typename (some itemCtype) false with
        | .error e => .error e
        | .ok s => .ok (rustPtr ++ s)

/-- Embedding of RawMapper._map_hash_table. -/
def mapHashTable (m : RawMapper) (ctype : Option String) :
    Except String String :=
  match ctype with
  | none => .error ("TypeError: expected string in pointer unwrap")
  | some ct =>
    match unwrapPointerCtype ct true with
    | .error e => .error e
    | .ok (rustPtr, derefCtype) =>
      if derefCtype ≠ "GHashTable" then
        .error ("AssertionError: hash table C type mismatch")
      else
        match mapIntrospectedType m ("GLib.HashTable") (some derefCtype) false with
        | .error e => .error e
        | .ok s => .ok (rustPtr ++ s)

/-- Defaulting of the actual ctype in _map_type and resolve_type: an absent
actual ctype falls back to the descriptor ctype with volatile stripped. -/
def actualCtypeOf (actualCtype : Option String) (t : TypeDesc) : Option String :=
  match actualCtype, t.ctypeOf with
  | none, some c => some (stripVolatile c)
  | a, _ => a

/-- Lookup of an optional actual ctype in the basic FFI table (a Python
membership test on None is always false). -/
def ffiBasicLookup (a : Option String) : Option String :=
  match a with
  | some x => ffiBasicTypes.lookup x
  | none => none

mutual

/-- Embedding of RawMapper._map_type: the actual ctype defaults to the
descriptor ctype with volatile stripped; a missing ctype on a descriptor with
no named target is an assertion failure; a basic FFI ctype renders directly
unless the descriptor is a fixed-size array (whose ctype is bogus, bug
756122); containers and named or fundamental targets dispatch to their
renderers. -/
def mapType (m : RawMapper) (typedesc : TypeDesc) (actualCtype : Option String)
    (nullable : Bool) : Except String String :=
  let actual := actualCtypeOf actualCtype typedesc
  if !(pyTruthy actual) && !(pyTruthy typedesc.ginameOf) then
    .error ("AssertionError: C type not found for type descriptor")
  else if (ffiBasicLookup actual).isSome && !(isFixedSizeArray typedesc) then
    .ok ((ffiBasicLookup actual).getD (""))
  else
    match typedesc with
    | .array k sz elem _ => mapArray m k sz elem actual
    | .list nm _ _ => mapListType m nm actual
    | .map _ _ _ => mapHashTable m actual
    | .base f g _ =>
      if pyTruthy f then
        mapFundamentalType m (f.getD ("")) actual
      else if pyTruthy g then
        mapIntrospectedType m (g.getD ("")) actual nullable
      else
        .error ("cannot represent type descriptor")
termination_by (sizeOf typedesc, 0)

/-- Embedding of RawMapper._map_array: a C array without a size unwraps the
pointer from the actual ctype and maps the element against the dereferenced
ctype; a C array with a size renders the sized-array syntax from the declared
element descriptor and the literal size; a GLib array asserts the paired
naming and renders the pointer-qualified introspected container type. -/
def mapArray (m : RawMapper) (arrayType : Option String) (size : Option Nat)
    (elem : TypeDesc) (actual : Option String) : Except String String :=
  match arrayType with
  | none =>
    match size with
    | none =>
      match actual with
      | none => .error ("TypeError: expected string in pointer unwrap")
      | some a =>
        match unwrapPointerCtype a true with
        | .error e => .error e
        | .ok (rustPtr, elementCtype) =>
          match mapType m elem (some elementCtype) false with
          | .error e => .error e
          | .ok s => .ok (rustPtr ++ s)
    | some n =>
      match mapType m elem none false with
      | .error e => .error e
      | .ok s => .ok ("[" ++ s ++ "; " ++ toString n ++ "]")
  | some g =>
    match actual with
    | none => .error ("TypeError: expected string in pointer unwrap")
    | some a =>
      match unwrapPointerCtype a true with
      | .error e => .error e
      | .ok (rustPtr, arrayCtype) =>
        if !(pyStartsWith g ("GLib.") ∧ pyStartsWith arrayCtype ("G") ∧
             pyDrop g 5 = pyDrop arrayCtype 1) then
          .error ("AssertionError: the array GI type " ++ g ++
                  " and C type " ++ arrayCtype ++ " do not match")
        else
          match mapIntrospectedType m g (some arrayCtype) false with
          | .error e => .error e
          | .ok s => .ok (rustPtr ++ s)
termination_by (sizeOf elem, 1)

end

/-- Embedding of RawMapper.map_parameter_type. -/
def mapParameterType (m : RawMapper) (p : GParameter) : Except String String :=
  match unwrapCallSignatureCtype (.par p) with
  | .error e => .error e
  | .ok (ptr, actualCtype) =>
    match mapType m p.ptype (some actualCtype) p.nullable with
    | .error e => .error e
    | .ok s => .ok (ptr ++ s)

/-- Embedding of RawMapper.map_return_type. -/
def mapReturnType (m : RawMapper) (r : GReturn) : Except String String :=
  mapType m r.rtype none r.nullable

/-- Embedding of RawMapper.map_callback. -/
def mapCallback (m : RawMapper) (params : List GParameter) (retval : GReturn)
    (nullable : Bool) : Except String String :=
  match params.mapM (fun p => mapParameterType m p) with
  | .error e => .error e
  | .ok paramList =>
    let syn := "extern \"C\" fn (" ++ String.intercalate (", ") paramList ++ ")"
    match (if typeDescEq retval.rtype typeNONE then Except.ok syn
           else
             match mapReturnType m retval with
             | .error e => .error e
             | .ok r => .ok (syn ++ " -> " ++ r)) with
    | .error e => .error e
    | .ok s => .ok (if nullable then "Option<" ++ s ++ ">" else s)

/-- Embedding of RawMapper.map_field_type: bit fields are unrepresentable; a
field with no declared type renders an anonymous callback as a nullable
function pointer; otherwise the field type is mapped with the nullable flag
set (function pointers in fields are always nullable). -/
def mapFieldType (m : RawMapper) (f : GField) : Except String String :=
  if f.bits.isSome then
    .error ("cannot represent bit field " ++ f.name)
  else
    match f.ftype with
    | none =>
      match f.anonymousNode with
      | some (.callback ps rv) => mapCallback m ps rv true
      | _ => .error ("cannot represent anonymous type of field " ++ f.name)
    | some td => mapType m td none true

/- ---------------------------------------------------------------------
Pass 1 resolution (mapping.py: RawMapper.resolve_type,
resolve_call_signature_type, _resolve_type_internal,
_resolve_fundamental_type, _resolve_giname, _resolve_array).
--------------------------------------------------------------------- -/

/-- Embedding of RawMapper._resolve_fundamental_type: a ctype naming a
host-platform primitive lazily creates the foreign-primitives crate and
reports it; anything else contributes no import. -/
def resolveFundamentalType (m : RawMapper) (_typename : String)
    (ctype : Option String) : Except String (List Crate × RawMapper) :=
  match (match ctype with
         | some c => libcTypes.lookup c
         | none => none) with
  | some _ =>
    match m.crateLibc with
    | some libc => .ok ([libc], m)
    | none =>
      match mkCrate ("libc") none none with
      | .error e => .error e
      | .ok libc =>
        .ok ([libc], ⟨m.crate, m.transformer, m.externCrateTable, some libc⟩)
  | none => .ok ([], m)

/-- Embedding of RawMapper._resolve_giname: an unresolvable reference is a
ConsistencyError; a resolved one registers the namespace that holds the
declaration. -/
def resolveGiname (m : RawMapper) (name : String) :
    Except String (List Crate × RawMapper) :=
  match m.transformer.lookupGiname name with
  | .error e => .error e
  | .ok none => .error ("reference to undefined type " ++ name)
  | .ok (some (ns, _)) => registerNamespace m ns

mutual

/-- Embedding of RawMapper._resolve_type_internal: a basic FFI ctype needs no
import; containers recurse or resolve their container namespace; fundamental
and named targets dispatch to their resolvers. -/
def resolveTypeInternal (m : RawMapper) (typedesc : TypeDesc)
    (actualCtype : Option String) : Except String (List Crate × RawMapper) :=
  if (ffiBasicLookup actualCtype).isSome then
    .ok ([], m)
  else
    match typedesc with
    | .array k sz elem _ => resolveArray m k sz elem actualCtype
    | .list nm _ _ => resolveGiname m nm
    | .map _ _ _ => resolveGiname m ("GLib.HashTable")
    | .base f g _ =>
      if pyTruthy f then
        resolveFundamentalType m (f.getD ("")) actualCtype
      else if pyTruthy g then
        resolveGiname m (g.getD (""))
      else
        .error ("cannot represent type descriptor")
termination_by (sizeOf typedesc, 0)

/-- Embedding of RawMapper._resolve_array: a C array without a size recurses
into the element with the pointer-dereferenced ctype; a C array with a size
recurses using the declared element descriptor and its own ctype; a GLib
array resolves its container namespace. -/
def resolveArray (m : RawMapper) (arrayType : Option String)
    (size : Option Nat) (elem : TypeDesc) (actual : Option String) :
    Except String (List Crate × RawMapper) :=
  match arrayType with
  | none =>
    match size with
    | none =>
      match actual with
      | none => .error ("TypeError: expected string in pointer unwrap")
      | some a =>
        match unwrapPointerCtype a true with
        | .error e => .error e
        | .ok (_, elementCtype) =>
          resolveTypeInternal m elem (some elementCtype)
    | some _ => resolveTypeInternal m elem elem.ctypeOf
  | some g => resolveGiname m g
termination_by (sizeOf elem, 1)

end

/-- Embedding of RawMapper.resolve_type: the actual ctype is the descriptor
ctype with volatile stripped (a descriptor with no ctype makes the strip
raise a TypeError). -/
def resolveType (m : RawMapper) (typedesc : TypeDesc) :
    Except String (List Crate × RawMapper) :=
  match typedesc.ctypeOf with
  | none => .error ("TypeError: expected string in volatile strip")
  | some c => resolveTypeInternal m typedesc (some (stripVolatile c))

/-- Embedding of RawMapper.resolve_call_signature_type. -/
def resolveCallSignatureType (m : RawMapper) (tc : TypeContainer) :
    Except String (List Crate × RawMapper) :=
  match unwrapCallSignatureCtype tc with
  | .error e => .error e
  | .ok (_, actualCtype) =>
    resolveTypeInternal m tc.typeOf (some actualCtype)

/- ---------------------------------------------------------------------
Concrete fixtures used by the claim instances.
--------------------------------------------------------------------- -/

/-- Namespace A of the prefix tie-break scenario: the currently-scanned
namespace, declaring the symbol prefix of the scenario. -/
def nsA : GNamespace := ⟨"A", "1.0", [], ["foo_"], [], []⟩

/-- Namespace B of the prefix tie-break scenario: an included namespace
declaring the same symbol prefix. -/
def nsB : GNamespace := ⟨"B", "1.0", [], ["foo_"], [], []⟩

/-- Transformer scanning namespace A with namespace B parsed as an include. -/
def trTie : Transformer := ⟨nsA, [("B", nsB)], false⟩

/-- Alias declaration whose target is the fundamental gint type. -/
def aliasToFundamental : GNode :=
  .alias (.base (some ("gint")) none (some ("gint")))

/-- Alias declaration whose target is the named reference B, an alias of a
fundamental: the middle link of the length-3 chain. -/
def aliasToAlias : GNode := .alias (.base none (some ("B")) none)

/-- Namespace carrying the alias chain A to B to gint. -/
def nsChain : GNamespace :=
  ⟨"Chain", "1.0", [], [], [], [("A", aliasToAlias), ("B", aliasToFundamental)]⟩

/-- Transformer over the alias-chain namespace. -/
def trChain : Transformer := ⟨nsChain, [], false⟩

/-- Self-referential alias declaration: its target names itself. -/
def aliasCyclic : GNode := .alias (.base none (some ("Cycle")) none)

/-- Namespace carrying only the self-referential alias. -/
def nsCyc : GNamespace :=
  ⟨"Cyc", "1.0", [], [], [], [("Cycle", aliasCyclic)]⟩

/-- Transformer over the cyclic-alias namespace. -/
def trCyc : Transformer := ⟨nsCyc, [], false⟩

/-- Home namespace of the fixture mapper. -/
def nsFoo : GNamespace := ⟨"Foo", "1.0", [], [], [], []⟩

/-- Fixture mapper over the Foo namespace with an empty import registry. -/
def fooMapper : RawMapper :=
  ⟨⟨"foo_1_0_sys", "foo", some nsFoo⟩, ⟨nsFoo, [], false⟩, [], none⟩

/-- Fundamental 32-bit integer descriptor with its conventional ctype. -/
def gint32Desc : TypeDesc := .base (some ("gint32")) none (some ("gint32"))

/-- Registered extern crate fixture. -/
def crateOther : Crate := ⟨"other_1_0_sys", "other", none⟩

/-- Foreign-primitives crate fixture. -/
def crateLibcFix : Crate := ⟨"libc", "libc", none⟩

/-- Mapper fixture with one registered extern crate and the
foreign-primitives crate present. -/
def mapperWithExtern : RawMapper :=
  ⟨⟨"foo_1_0_sys", "foo", some nsFoo⟩, ⟨nsFoo, [], false⟩,
   [("Other", crateOther)], some crateLibcFix⟩

/-- External namespace fixture for registration scenarios. -/
def nsOther : GNamespace := ⟨"Other", "1.0", [], [], [], []⟩

/-- Only-const-match predicate of the error contract of unwrap_pointer: some
const-pointer pattern matches but the mutable-pointer pattern does not. -/
def constOnlyMatch (s : String) : Prop :=
  ((matchConst1 s.data).isSome = true ∨ (matchConst2 s.data).isSome = true) ∧
    matchMut s.data = none

/-- Trailing-pointer-layer shape of a ctype string: a nonempty base not
ending in a space, followed by optional spaces and a final star. -/
def hasTrailingPointerLayer (s : String) : Prop :=
  ∃ base sp, s.data = base ++ sp ++ ['*'] ∧ base ≠ [] ∧
    base.getLast? ≠ some ' ' ∧ ∀ c ∈ sp, c = ' '

/- ---------------------------------------------------------------------
Claim theorems.
--------------------------------------------------------------------- -/

/-- C1: for every compound field whose type descriptor is a C-style
fixed-size array with an explicit element count, map_field_type renders the
sized-array syntax built from the declared element descriptor and the literal
size, for every accompanying raw ctype string (including keys of the basic
FFI table, e.g. gpointer), and never applies pointer-unwrapping to that
ctype; in particular a 4-element array of 32-bit integers maps to the
sized-array syntax of i32 and 4.  The hypothesis states that the raw ctype is
non-empty after volatile stripping (an empty one trips the source's C-type
assertion before any mapping). -/
theorem c1_fixed_size_array_mapping :
    ∀ (m : RawMapper) (n : Nat) (elem : TypeDesc) (ct fname : String),
      pyTruthy (some (stripVolatile ct)) = true →
      (mapFieldType m
          ⟨fname, some (.array arrayKindC (some n) elem (some ct)), none, none⟩ =
        match mapType m elem none false with
        | .error e => .error e
        | .ok s => .ok ("[" ++ s ++ "; " ++ toString n ++ "]")) ∧
      mapFieldType m
          ⟨fname, some (.array arrayKindC (some 4) gint32Desc (some ct)), none, none⟩ =
        .ok ("[i32; 4]") := by
  intro m n elem ct fname hct
  have hne : (stripVolatile ct).data ≠ [] := by
    simpa [pyTruthy, List.isEmpty_iff] using hct
  have key : ∀ (n' : Nat) (elem' : TypeDesc),
      mapFieldType m
          ⟨fname, some (.array arrayKindC (some n') elem' (some ct)), none, none⟩ =
        match mapType m elem' none false with
        | .error e => .error e
        | .ok s => .ok ("[" ++ s ++ "; " ++ toString n' ++ "]") := by
    intro n' elem'
    unfold mapFieldType
    simp only [Option.isSome_none, Bool.false_eq_true, if_false]
    rw [mapType.eq_def]
    simp [actualCtypeOf, TypeDesc.ctypeOf, TypeDesc.ginameOf, hct, pyTruthy,
      isFixedSizeArray, arrayKindC, hne]
    rw [mapArray.eq_def]
  refine ⟨key n elem, ?_⟩
  rw [key 4 gint32Desc]
  have hev : mapType m gint32Desc none false = .ok ("i32") := by
    rw [mapType.eq_def]
    rfl
  rw [hev]
  decide

/-- C1 witness: the general theorem applied at a concrete mapper, size 4,
32-bit element, and the basic-FFI-table key gpointer as the raw ctype. -/
theorem c1_fixed_size_array_mapping_witness :
    pyTruthy (some (stripVolatile ("gpointer"))) = true ∧
    mapFieldType fooMapper
        ⟨"f", some (.array arrayKindC (some 4) gint32Desc (some ("gpointer"))),
         none, none⟩ =
      .ok ("[i32; 4]") := by
  refine ⟨by decide, ?_⟩
  exact (c1_fixed_size_array_mapping fooMapper 4 gint32Desc ("gpointer") "f"
    (by decide)).2

/-- Character codes below the surrogate range are produced faithfully by
Char.ofNat. -/
theorem charOfNat_toNat (n : Nat) (h : n < 55296) : (Char.ofNat n).toNat = n := by
  have hv : n.isValidChar := Or.inl h
  unfold Char.ofNat
  rw [dif_pos hv]
  unfold Char.ofNatAux Char.toNat
  simp [UInt32.toNat, BitVec.toNat_ofNatLt]

/-- Numeric description of the ASCII lower-casing map. -/
theorem pyLowerChar_toNat (c : Char) :
    (pyLowerChar c).toNat =
      if 65 ≤ c.toNat ∧ c.toNat ≤ 90 then c.toNat + 32 else c.toNat := by
  unfold pyLowerChar
  split
  · next h => rw [charOfNat_toNat (c.toNat + 32) (by omega)]
  · rfl

/-- Lower-casing keeps word characters inside the identifier character
class. -/
theorem identChar_pyLowerChar_of_word (c : Char) (h : pyWordChar c = true) :
    identChar (pyLowerChar c) = true := by
  have ht := pyLowerChar_toNat c
  simp only [pyWordChar, pyDigitChar, pyUpperChar, pyLowerCaseChar,
    Bool.or_eq_true, Bool.and_eq_true, decide_eq_true_eq] at h
  simp only [identChar, pyUpperChar, pyLowerCaseChar, pyDigitChar,
    Bool.or_eq_true, Bool.and_eq_true, decide_eq_true_eq, ht]
  split <;> omega

/-- Lower-casing a non-digit word character lands in the identifier start
class. -/
theorem identStartChar_pyLowerChar_of_word (c : Char) (h : pyWordChar c = true)
    (hd : pyDigitChar c = false) : identStartChar (pyLowerChar c) = true := by
  have ht := pyLowerChar_toNat c
  simp only [pyWordChar, pyDigitChar, pyUpperChar, pyLowerCaseChar,
    Bool.or_eq_true, Bool.and_eq_true, decide_eq_true_eq] at h
  simp only [pyDigitChar, Bool.and_eq_true, decide_eq_true_eq,
    Bool.and_eq_false_iff, decide_eq_false_iff_not] at hd
  simp only [identStartChar, pyUpperChar, pyLowerCaseChar,
    Bool.or_eq_true, Bool.and_eq_true, decide_eq_true_eq, ht]
  split <;> omega

/-- Character-level description of the crate-name sanitizer. -/
theorem sanitizeCrateChars_data (s : String) :
    (sanitizeCrateChars s).data =
      s.data.map (fun c => pyLowerChar (if pyWordChar c then c else '_')) := by
  simp [sanitizeCrateChars, List.map_map, Function.comp]

/-- Every character the crate-name sanitizer emits is an identifier
character. -/
theorem sanitizeCrateChars_all_identChar (s : String) :
    ((sanitizeCrateChars s).data).all identChar = true := by
  rw [sanitizeCrateChars_data, List.all_map, List.all_eq_true]
  intro c _
  by_cases hw : pyWordChar c = true
  · simpa [Function.comp, hw] using identChar_pyLowerChar_of_word c hw
  · simp only [Function.comp, Bool.not_eq_true] at hw
    simp [Function.comp, hw]
    decide

/-- None of the target-language keywords contains an underscore. -/
theorem keywords_no_underscore : ∀ kw ∈ rustKeywords, '_' ∉ kw.data := by
  decide

/-- A name containing an underscore is not a keyword. -/
theorem not_keyword_of_underscore (s : String) (h : '_' ∈ s.data) :
    rustKeywords.contains s = false := by
  rw [List.contains_eq_any_beq, List.any_eq_false]
  intro kw hkw
  intro he
  have hs : s = kw := eq_of_beq he
  exact keywords_no_underscore kw hkw (hs ▸ h)

/-- Structure of an identifier-pattern match. -/
theorem identPatMatch_iff (s : String) :
    identPatMatch s = true ↔
      ∃ c rest, s.data = c :: rest ∧ identStartChar c = true ∧
        rest.all identChar = true := by
  unfold identPatMatch
  cases hs : s.data with
  | nil => simp
  | cons c rest =>
    simp only [Bool.and_eq_true, List.all_eq_true]
    exact ⟨fun h => ⟨c, rest, rfl, h.1, by simpa using h.2⟩,
      by
        rintro ⟨c1, r1, he, h1, h2⟩
        cases he
        exact ⟨h1, by simpa using h2⟩⟩

/-- C2 (amended): crate-name derivation depends only on the namespace name
and version (determinism over equal inputs), the GLib 2.0 example yields
glib_2_0_sys, and for ASCII inputs whose name does not start with a decimal
digit the result is a valid target-language identifier.  (The claim as frozen
asserts validity for every input pair; a name starting with a digit refutes
that, see the counterexample.) -/
theorem c2_sys_crate_name_amended :
    (∀ ns1 ns2 : GNamespace, ns1.name = ns2.name → ns1.version = ns2.version →
      sysCrateName ns1 = sysCrateName ns2) ∧
    sysCrateName ⟨"GLib", "2.0", [], [], [], []⟩ = "glib_2_0_sys" ∧
    (∀ ns : GNamespace,
      (∀ c ∈ ns.name.data, c.toNat < 128) →
      (∀ c ∈ ns.version.data, c.toNat < 128) →
      (∀ c, ns.name.data.head? = some c → pyDigitChar c = false) →
      isIdent (sysCrateName ns) = true) := by
  refine ⟨?_, by decide, ?_⟩
  · intro ns1 ns2 h1 h2
    unfold sysCrateName
    rw [h1, h2]
  · intro ns _ha _hv hd
    set r := sysCrateName ns with hr
    have hdata : r.data =
        (sanitizeCrateChars ns.name).data ++
          ('_' :: ((sanitizeCrateChars ns.version).data ++ ("_sys").data)) := by
      rw [hr]
      unfold sysCrateName
      simp [String.data_append, List.append_assoc]
    have hmem : '_' ∈ r.data := by
      rw [hdata]
      exact List.mem_append_right _ (List.mem_cons_self _ _)
    have hkw : rustKeywords.contains r = false := not_keyword_of_underscore r hmem
    have hpat : identPatMatch r = true := by
      rw [identPatMatch_iff]
      cases hnm : ns.name.data with
      | nil =>
        refine ⟨'_', (sanitizeCrateChars ns.version).data ++ ("_sys").data, ?_, by decide, ?_⟩
        · rw [hdata, sanitizeCrateChars_data, hnm]
          rfl
        · rw [List.all_append]
          rw [sanitizeCrateChars_all_identChar]
          decide
      | cons c0 cs0 =>
        refine ⟨pyLowerChar (if pyWordChar c0 then c0 else '_'),
          (cs0.map (fun c => pyLowerChar (if pyWordChar c then c else '_'))) ++
            ('_' :: ((sanitizeCrateChars ns.version).data ++ ("_sys").data)),
          ?_, ?_, ?_⟩
        · rw [hdata, sanitizeCrateChars_data, hnm]
          rfl
        · by_cases hw : pyWordChar c0 = true
          · rw [if_pos hw]
            exact identStartChar_pyLowerChar_of_word c0 hw
              (hd c0 (by rw [hnm]; rfl))
          · rw [if_neg hw]
            decide
        · rw [List.all_append]
          simp only [Bool.and_eq_true]
          refine ⟨?_, ?_⟩
          · have h5 := sanitizeCrateChars_all_identChar ⟨cs0⟩
            rw [sanitizeCrateChars_data] at h5
            exact h5
          · simp only [List.all_cons, Bool.and_eq_true]
            refine ⟨by decide, ?_⟩
            rw [List.all_append]
            rw [sanitizeCrateChars_all_identChar]
            decide
    unfold isIdent
    rw [hpat, hkw]
    rfl

/-- C2 counterexample: a namespace name starting with a decimal digit yields
a crate name that is not a valid target-language identifier, refuting the
universal validity part of the claim. -/
theorem c2_sys_crate_name_cex :
    sysCrateName ⟨"9Lib", "2.0", [], [], [], []⟩ = "9lib_2_0_sys" ∧
    isIdent (sysCrateName ⟨"9Lib", "2.0", [], [], [], []⟩) = false := by
  exact ⟨by decide, by decide⟩

/-- C2 witness: the amended theorem applied to the GLib 2.0 namespace. -/
theorem c2_sys_crate_name_witness :
    sysCrateName ⟨"GLib", "2.0", [], [], [], []⟩ = "glib_2_0_sys" ∧
    isIdent (sysCrateName ⟨"GLib", "2.0", [], [], [], []⟩) = true := by
  refine ⟨c2_sys_crate_name_amended.2.1, ?_⟩
  exact c2_sys_crate_name_amended.2.2 ⟨"GLib", "2.0", [], [], [], []⟩
    (by decide) (by decide) (by decide)

/-- C3 (amended): with the current namespace A and the included namespace B
both declaring the symbol prefix foo_, resolving foo_bar returns both as
candidates (B first, A last, since the current namespace sorts last), and the
single best match taken by split_csymbol — the last element — is A, the
current namespace, rather than B. -/
theorem c3_prefix_tie_break_amended :
    (trTie.splitCsymbolNamespaces ("foo_bar")).map
        (fun l => l.map (fun p => (p.1.name, p.2))) =
      .ok [("B", "bar"), ("A", "bar")] ∧
    (trTie.splitCsymbol ("foo_bar")).map (fun p => (p.1.name, p.2)) =
      .ok ("A", "bar") := by
  exact ⟨by decide, by decide⟩

/-- C3 counterexample: the single best match for foo_bar is the current
namespace A, not the included namespace B as the claim states. -/
theorem c3_prefix_tie_break_cex :
    (trTie.splitCsymbol ("foo_bar")).map (fun p => (p.1.name, p.2)) =
      .ok ("A", "bar") ∧
    (trTie.splitCsymbol ("foo_bar")).map (fun p => (p.1.name, p.2)) ≠
      .ok ("B", "bar") := by
  exact ⟨by decide, by decide⟩

/-- C4 (amended): the alias-of-alias-of-fundamental chain of length 3
resolves to the fundamental type in one call, with the two dereferencing
iterations within the bound given by the two alias declarations of the graph;
but a self-referential alias is not detected: the dereferencing loop runs
forever (for every fuel bound the loop is still running when the fuel runs
out, the ok-none result of the fuel-indexed embedding). -/
theorem c4_alias_chain_amended :
    resolveAliasesFuel trChain 2 (.node aliasToAlias) =
      .ok (some (.ty (.base (some ("gint")) none (some ("gint"))))) ∧
    ∀ fuel : Nat, resolveAliasesFuel trCyc fuel (.node aliasCyclic) = .ok none := by
  refine ⟨by decide, ?_⟩
  intro fuel
  induction fuel with
  | zero => rfl
  | succ n ih => exact ih

/-- C4 counterexample: on the one-alias graph with a self-referential alias,
five loop iterations (more than the number of alias declarations) still leave
the dereferencing loop running, so the chain neither terminates within the
claimed bound nor is the cycle detected and reported as an error. -/
theorem c4_alias_cycle_cex :
    resolveAliasesFuel trCyc 5 (.node aliasCyclic) = .ok none := by
  decide

/-- C5: for every sized-integer constant type and every literal matching the
integer grammar, a fitting value is returned unchanged; a signed target whose
value is at most the unsigned bound of the width gets the two's-complement
rendering of value minus two to the width; anything else passes through; and
the width-8 signed type maps the literal 255 to -1 through
map_constant_value. -/
theorem c5_sized_int_conversion :
    (∀ (ti : SizedIntTypeInfo) (s : String), intLiteralMatch s = true →
      (ti.fits (pyIntOfString s) = true → ti.convert s = s) ∧
      (ti.signed = true → ti.fits (pyIntOfString s) = false →
        pyIntOfString s ≤ 2 ^ ti.bitWidth - 1 →
        ti.convert s = toString (pyIntOfString s - 2 ^ ti.bitWidth)) ∧
      (ti.fits (pyIntOfString s) = false →
        (ti.signed = false ∨ ¬ pyIntOfString s ≤ 2 ^ ti.bitWidth - 1) →
        ti.convert s = s)) ∧
    mapConstantValue typeINT8 ("255") = .ok ("-1") := by
  constructor
  · intro ti s _hmatch
    refine ⟨?_, ?_, ?_⟩
    · intro hfits
      unfold SizedIntTypeInfo.convert
      simp [hfits]
    · intro hs hfits hle
      unfold SizedIntTypeInfo.convert
      simp [hfits, hs, hle]
    · intro hfits hor
      unfold SizedIntTypeInfo.convert
      rcases hor with h | h
      · simp [hfits, h]
      · simp [hfits, h]
  · decide

/-- C5 witness: the general conversion applied to the width-8 signed type and
the literal 255, together with the concrete map_constant_value rendering. -/
theorem c5_sized_int_conversion_witness :
    intLiteralMatch ("255") = true ∧
    SizedIntTypeInfo.convert ⟨8, true⟩ ("255") =
      toString (pyIntOfString ("255") - 2 ^ 8) ∧
    mapConstantValue typeINT8 ("255") = .ok ("-1") := by
  refine ⟨by decide, ?_, c5_sized_int_conversion.2⟩
  exact (c5_sized_int_conversion.1 ⟨8, true⟩ ("255") (by decide)).2.1 rfl
    (by decide) (by decide)

/-- C6 counterexample: a constant of the uint64 class holding the literal -1
is handled by the sized-integer branch (guint64 is a sized-integer key) and
passes through unchanged; it is not rewritten into the i64-cast form the
claim states. -/
theorem c6_uint64_negative_cex :
    mapConstantValue typeUINT64 ("-1") = .ok ("-1") ∧
    mapConstantValue typeUINT64 ("-1") ≠ .ok ("-1i64 as guint64") := by
  exact ⟨by decide, by decide⟩

set_option maxHeartbeats 2000000 in
/-- C6 (amended): the i64-cast rewrite of negative literals applies to the
unsigned constant types outside the sized-integer family (the gushort, guint,
gulong, gsize, guintptr, gunichar and unsigned-long-long classes), while the
sized uint64 class passes a negative literal through unchanged via the
sized-integer branch. -/
theorem c6_unsigned_negative_cast_amended :
    ∀ s : String, intLiteralMatch s = true → pyIntOfString s < 0 →
      mapConstantValue typeUSHORT s = .ok (s ++ "i64 as gushort") ∧
      mapConstantValue typeUINT s = .ok (s ++ "i64 as guint") ∧
      mapConstantValue typeULONG s = .ok (s ++ "i64 as gulong") ∧
      mapConstantValue typeSIZE s = .ok (s ++ "i64 as gsize") ∧
      mapConstantValue typeUINTPTR s = .ok (s ++ "i64 as guintptr") ∧
      mapConstantValue typeUNICHAR s = .ok (s ++ "i64 as gunichar") ∧
      mapConstantValue typeLONGULONG s = .ok (s ++ "i64 as unsigned long long") ∧
      mapConstantValue typeUINT64 s = .ok s := by
  intro s h hneg
  have hv : validateIntegerValue s = .ok () := by
    unfold validateIntegerValue
    simp [h]
  refine ⟨?_, ?_, ?_, ?_, ?_, ?_, ?_, ?_⟩
  case _ =>
    unfold mapConstantValue
    rw [hv]
    simp [typeDescEq, typeUSHORT, typeBOOLEAN, TypeDesc.ctypeOf,
      TypeDesc.fundamentalOf, stringCtypes, sizedIntTypes, unsignedTypes, hneg]
    rw [String.append_assoc]
    exact congrArg (fun x => s ++ x) (by decide)
  case _ =>
    unfold mapConstantValue
    rw [hv]
    simp [typeDescEq, typeUINT, typeBOOLEAN, TypeDesc.ctypeOf,
      TypeDesc.fundamentalOf, stringCtypes, sizedIntTypes, unsignedTypes, hneg]
    rw [String.append_assoc]
    exact congrArg (fun x => s ++ x) (by decide)
  case _ =>
    unfold mapConstantValue
    rw [hv]
    simp [typeDescEq, typeULONG, typeBOOLEAN, TypeDesc.ctypeOf,
      TypeDesc.fundamentalOf, stringCtypes, sizedIntTypes, unsignedTypes, hneg]
    rw [String.append_assoc]
    exact congrArg (fun x => s ++ x) (by decide)
  case _ =>
    unfold mapConstantValue
    rw [hv]
    simp [typeDescEq, typeSIZE, typeBOOLEAN, TypeDesc.ctypeOf,
      TypeDesc.fundamentalOf, stringCtypes, sizedIntTypes, unsignedTypes, hneg]
    rw [String.append_assoc]
    exact congrArg (fun x => s ++ x) (by decide)
  case _ =>
    unfold mapConstantValue
    rw [hv]
    simp [typeDescEq, typeUINTPTR, typeBOOLEAN, TypeDesc.ctypeOf,
      TypeDesc.fundamentalOf, stringCtypes, sizedIntTypes, unsignedTypes, hneg]
    rw [String.append_assoc]
    exact congrArg (fun x => s ++ x) (by decide)
  case _ =>
    unfold mapConstantValue
    rw [hv]
    simp [typeDescEq, typeUNICHAR, typeBOOLEAN, TypeDesc.ctypeOf,
      TypeDesc.fundamentalOf, stringCtypes, sizedIntTypes, unsignedTypes, hneg]
    rw [String.append_assoc]
    exact congrArg (fun x => s ++ x) (by decide)
  case _ =>
    unfold mapConstantValue
    rw [hv]
    simp [typeDescEq, typeLONGULONG, typeBOOLEAN, TypeDesc.ctypeOf,
      TypeDesc.fundamentalOf, stringCtypes, sizedIntTypes, unsignedTypes, hneg]
    rw [String.append_assoc]
    exact congrArg (fun x => s ++ x) (by decide)
  case _ =>
    have hcv : SizedIntTypeInfo.convert ⟨64, false⟩ s = s := by
      unfold SizedIntTypeInfo.convert
      cases hfits : SizedIntTypeInfo.fits ⟨64, false⟩ (pyIntOfString s) <;>
        simp [hfits]
    unfold mapConstantValue
    rw [hv]
    simp [typeDescEq, typeUINT64, typeBOOLEAN, TypeDesc.ctypeOf,
      TypeDesc.fundamentalOf, stringCtypes, sizedIntTypes, List.lookup, hcv]

/-- C6 witness: the amended behavior at the literal -1 for the gsize class
and the uint64 class. -/
theorem c6_unsigned_negative_cast_witness :
    intLiteralMatch ("-1") = true ∧ pyIntOfString ("-1") < 0 ∧
    mapConstantValue typeSIZE ("-1") = .ok ("-1" ++ "i64 as gsize") ∧
    mapConstantValue typeUINT64 ("-1") = .ok ("-1") := by
  refine ⟨by decide, by decide, ?_, ?_⟩
  · exact (c6_unsigned_negative_cast_amended ("-1") (by decide) (by decide)).2.2.2.1
  · exact (c6_unsigned_negative_cast_amended ("-1") (by decide) (by decide)).2.2.2.2.2.2.2

/-- Association lookup is preserved under appending entries on the right. -/
theorem lookup_append_of_some {β : Type} (l1 l2 : List (String × β)) (k : String)
    (v : β) (h : l1.lookup k = some v) : (l1 ++ l2).lookup k = some v := by
  induction l1 with
  | nil => cases h
  | cons p rest ih =>
    rw [List.cons_append]
    unfold List.lookup at h ⊢
    cases hk : (k == p.1) with
    | true => rw [hk] at h; exact h
    | false => rw [hk] at h; exact ih h

/-- A key that fails lookup is not among the keys of the table. -/
theorem not_mem_keys_of_lookup_none {β : Type} (l : List (String × β)) (k : String)
    (h : l.lookup k = none) : k ∉ l.map Prod.fst := by
  induction l with
  | nil => simp
  | cons p rest ih =>
    unfold List.lookup at h
    cases hk : (k == p.1) with
    | true => rw [hk] at h; cases h
    | false =>
      rw [hk] at h
      simp only [List.map_cons, List.mem_cons]
      rintro (he | hm)
      · rw [he] at hk
        simp at hk
      · exact ih h hm

/-- C9: the extern-crate enumeration of any mapper state lists the registered
crates sorted alphabetically by crate name, with the foreign-primitives crate
last when it was registered and absent otherwise, and its members are exactly
the registered crates plus the optional foreign-primitives crate. -/
theorem c9_extern_crates_enumeration :
    ∀ m : RawMapper,
      (m.crateLibc = none → List.Sorted crateNameLe (externCrates m)) ∧
      (∀ libc : Crate, m.crateLibc = some libc →
        ∃ l, externCrates m = l ++ [libc] ∧ List.Sorted crateNameLe l) ∧
      (∀ c : Crate, c ∈ externCrates m ↔
        ((∃ k, (k, c) ∈ m.externCrateTable) ∨ m.crateLibc = some c)) := by
  intro m
  refine ⟨?_, ?_, ?_⟩
  · intro h
    unfold externCrates
    rw [h]
    simpa using List.sorted_insertionSort crateNameLe
      (m.externCrateTable.map Prod.snd)
  · intro libc h
    unfold externCrates
    rw [h]
    exact ⟨_, rfl, List.sorted_insertionSort crateNameLe
      (m.externCrateTable.map Prod.snd)⟩
  · intro c
    unfold externCrates
    rw [List.mem_append,
      (List.perm_insertionSort crateNameLe
        (m.externCrateTable.map Prod.snd)).mem_iff,
      List.mem_map]
    constructor
    · rintro (⟨p, hp, rfl⟩ | hc)
      · exact Or.inl ⟨p.1, hp⟩
      · cases hl : m.crateLibc with
        | none => rw [hl] at hc; cases hc
        | some lc =>
          rw [hl] at hc
          simp only [List.mem_singleton] at hc
          exact Or.inr (congrArg some hc.symm)
    · rintro (⟨k, hk⟩ | hc)
      · exact Or.inl ⟨(k, c), hk, rfl⟩
      · right
        rw [hc]
        simp

/-- C9 witness: the enumeration properties at a mapper holding one registered
crate and the foreign-primitives crate. -/
theorem c9_extern_crates_enumeration_witness :
    (∃ l, externCrates mapperWithExtern = l ++ [crateLibcFix] ∧
      List.Sorted crateNameLe l) ∧
    (crateOther ∈ externCrates mapperWithExtern ↔
      ((∃ k, (k, crateOther) ∈ mapperWithExtern.externCrateTable) ∨
        mapperWithExtern.crateLibc = some crateOther)) := by
  exact ⟨(c9_extern_crates_enumeration mapperWithExtern).2.1 crateLibcFix rfl,
    (c9_extern_crates_enumeration mapperWithExtern).2.2 crateOther⟩

/-- C10: resolving a named reference found in the home namespace returns the
empty crate set and leaves the mapper (registry and foreign-primitives field)
unchanged; registering an already-registered namespace returns the registered
crate and leaves the mapper unchanged; and any successful registration
preserves every existing registry entry and keeps the registry keys free of
duplicates. -/
theorem c10_register_namespace_frame :
    (∀ (m : RawMapper) (name : String) (ns : GNamespace) (nd : GNode)
        (h : GNamespace),
      m.transformer.lookupGiname name = .ok (some (ns, nd)) →
      m.crate.cnamespace = some h → nsIdent ns h = true →
      resolveGiname m name = .ok ([], m)) ∧
    (∀ (m : RawMapper) (ns : GNamespace) (c : Crate),
      (match m.crate.cnamespace with
       | some h => nsIdent ns h
       | none => false) = false →
      m.externCrateTable.lookup ns.name = some c →
      registerNamespace m ns = .ok ([c], m)) ∧
    (∀ (m : RawMapper) (ns : GNamespace) (res : List Crate) (m2 : RawMapper),
      registerNamespace m ns = .ok (res, m2) →
      (∀ k v, m.externCrateTable.lookup k = some v →
        m2.externCrateTable.lookup k = some v) ∧
      ((m.externCrateTable.map Prod.fst).Nodup →
        (m2.externCrateTable.map Prod.fst).Nodup)) := by
  refine ⟨?_, ?_, ?_⟩
  · intro m name ns nd h hlook hcr hni
    unfold resolveGiname
    rw [hlook]
    unfold registerNamespace
    rw [hcr]
    simp [hni]
  · intro m ns c hcond hl
    unfold registerNamespace
    rw [hcond, hl]
    rfl
  · intro m ns res m2 hreg
    unfold registerNamespace at hreg
    split at hreg
    · cases hreg
      exact ⟨fun k v hv => hv, fun hnd => hnd⟩
    · revert hreg
      cases hl : m.externCrateTable.lookup ns.name with
      | some crate =>
        intro hreg
        cases hreg
        exact ⟨fun k v hv => hv, fun hnd => hnd⟩
      | none =>
        cases hc : createCrate ns with
        | error e => intro hreg; cases hreg
        | ok crate =>
          intro hreg
          cases hreg
          refine ⟨?_, ?_⟩
          · intro k v hv
            exact lookup_append_of_some _ _ k v hv
          · intro hnd
            rw [List.map_append, List.nodup_append]
            refine ⟨hnd, by simp, ?_⟩
            intro a ha hb
            simp only [List.map_cons, List.map_nil, List.mem_singleton] at hb
            rw [hb] at ha
            exact not_mem_keys_of_lookup_none _ _ hl ha

/-- C10 witness: the frame properties exercised at concrete mappers — a
home-namespace reference resolving to no import and no state change, a second
registration of an already-registered namespace returning the identical
crate, and a fresh registration preserving the existing entry and key
uniqueness. -/
theorem c10_register_namespace_frame_witness :
    resolveGiname
        ⟨⟨"foo_1_0_sys", "foo",
          some ⟨"Foo", "1.0", [], [], [], [("Thing", GNode.enum)]⟩⟩,
         ⟨⟨"Foo", "1.0", [], [], [], [("Thing", GNode.enum)]⟩, [], false⟩,
         [], none⟩ ("Thing") =
      .ok ([],
        ⟨⟨"foo_1_0_sys", "foo",
          some ⟨"Foo", "1.0", [], [], [], [("Thing", GNode.enum)]⟩⟩,
         ⟨⟨"Foo", "1.0", [], [], [], [("Thing", GNode.enum)]⟩, [], false⟩,
         [], none⟩) ∧
    registerNamespace mapperWithExtern nsOther =
      .ok ([crateOther], mapperWithExtern) ∧
    (mapperWithExtern.externCrateTable ++
        [("Bar",
          (⟨"bar_2_0_sys", "bar", some ⟨"Bar", "2.0", [], [], [], []⟩⟩ : Crate))]).lookup
        ("Other") = some crateOther ∧
    ((mapperWithExtern.externCrateTable ++
        [("Bar",
          (⟨"bar_2_0_sys", "bar", some ⟨"Bar", "2.0", [], [], [], []⟩⟩ : Crate))]).map
        Prod.fst).Nodup := by
  have hreg : registerNamespace mapperWithExtern
      ⟨"Bar", "2.0", [], [], [], []⟩ =
      .ok ([⟨"bar_2_0_sys", "bar", some ⟨"Bar", "2.0", [], [], [], []⟩⟩],
        ⟨mapperWithExtern.crate, mapperWithExtern.transformer,
         mapperWithExtern.externCrateTable ++
           [("Bar", ⟨"bar_2_0_sys", "bar", some ⟨"Bar", "2.0", [], [], [], []⟩⟩)],
         mapperWithExtern.crateLibc⟩) := by decide
  refine ⟨?_, ?_, ?_, ?_⟩
  · exact c10_register_namespace_frame.1
      ⟨⟨"foo_1_0_sys", "foo",
        some ⟨"Foo", "1.0", [], [], [], [("Thing", GNode.enum)]⟩⟩,
       ⟨⟨"Foo", "1.0", [], [], [], [("Thing", GNode.enum)]⟩, [], false⟩,
       [], none⟩ ("Thing")
      (⟨"Foo", "1.0", [], [], [], [("Thing", GNode.enum)]⟩ : GNamespace)
      GNode.enum
      (⟨"Foo", "1.0", [], [], [], [("Thing", GNode.enum)]⟩ : GNamespace)
      (by decide) rfl (by decide)
  · exact c10_register_namespace_frame.2.1 mapperWithExtern nsOther crateOther
      (by decide) (by decide)
  · exact (c10_register_namespace_frame.2.2 mapperWithExtern
      ⟨"Bar", "2.0", [], [], [], []⟩ _ _ hreg).1 ("Other") crateOther
      (by decide)
  · exact (c10_register_namespace_frame.2.2 mapperWithExtern
      ⟨"Bar", "2.0", [], [], [], []⟩ _ _ hreg).2 (by decide)

theorem isSpaceChar_eq_false (c : Char) (h : c ≠ ' ') : isSpaceChar c = false := by
  simp [isSpaceChar, h]

theorem dropWhile_reverse_eq (l : List Char)
    (h2 : l.getLast? ≠ some ' ') : l.reverse.dropWhile isSpaceChar = l.reverse := by
  cases hrev : l.reverse with
  | nil => rfl
  | cons c r =>
    have hc : c ≠ ' ' := by
      intro he
      apply h2
      rw [List.getLast?_eq_head?_reverse, hrev, he]
      rfl
    rw [List.dropWhile_cons, isSpaceChar_eq_false c hc]
    simp

theorem matchMut_wrap (l : List Char) (h1 : l ≠ []) (h2 : l.getLast? ≠ some ' ') :
    matchMut (l ++ ['*']) = some l := by
  unfold matchMut
  rw [List.reverse_append]
  simp only [List.reverse_cons, List.reverse_nil, List.nil_append,
    List.singleton_append]
  rw [dropWhile_reverse_eq l h2]
  have hne : l.reverse ≠ [] := by simpa using h1
  simp [List.isEmpty_iff, hne]

theorem matchConst1_wrapMut_none (l : List Char) (h2 : l.getLast? ≠ some ' ')
    (h3 : ¬ ([' ', 'c', 'o', 'n', 's', 't'] <:+ l))
    (h4 : l ≠ ['c', 'o', 'n', 's', 't']) :
    matchConst1 (l ++ ['*']) = none := by
  unfold matchConst1
  have hrw : (l ++ ['*']).reverse = '*' :: l.reverse := by simp
  rw [hrw]
  simp only []
  have hd := dropWhile_reverse_eq l h2
  simp only [if_true, hd]
  by_cases hp : constTokRev.isPrefixOf l.reverse = true
  · have hpre : constTokRev <+: l.reverse := List.isPrefixOf_iff_prefix.1 hp
    have hsuf : (['c', 'o', 'n', 's', 't'] : List Char) <:+ l := by
      rw [← List.reverse_prefix]
      exact hpre
    obtain ⟨pre, hpre2⟩ := hsuf
    have hl : l = pre ++ ['c', 'o', 'n', 's', 't'] := hpre2.symm
    subst hl
    have hrev : ((pre ++ ['c', 'o', 'n', 's', 't'] : List Char)).reverse =
        constTokRev ++ pre.reverse := by
      simp [constTokRev]
    rw [hrev]
    have hdrop : (constTokRev ++ pre.reverse).drop 5 = pre.reverse := by
      rw [show (5 : Nat) = constTokRev.length from rfl]
      exact List.drop_left _ _
    rw [hdrop]
    simp only [if_pos (by rw [hrev] at hp; exact hp)]
    cases hpr : pre.reverse with
    | nil => simp
    | cons c4 r4 =>
      by_cases hc4 : c4 = ' '
      · exfalso
        apply h3
        have hpre3 : pre = r4.reverse ++ [' '] := by
          have h6 := congrArg List.reverse hpr
          simpa [hc4] using h6
        rw [hpre3]
        exact ⟨r4.reverse, by simp⟩
      · simp [hc4]
  · simp [hp]

theorem dropWhile_append_all_spaces (xs ys : List Char)
    (h : ∀ c ∈ xs, c = ' ') :
    (xs ++ ys).dropWhile isSpaceChar = ys.dropWhile isSpaceChar := by
  rw [List.dropWhile_append, if_pos]
  rw [List.isEmpty_iff, List.dropWhile_eq_nil_iff]
  intro x hx
  simp [isSpaceChar, h x hx]

theorem dropWhile_append_of_ne_nil (xs ys : List Char)
    (h : xs.dropWhile isSpaceChar ≠ []) :
    (xs ++ ys).dropWhile isSpaceChar = xs.dropWhile isSpaceChar ++ ys := by
  rw [List.dropWhile_append, if_neg]
  rw [List.isEmpty_iff]
  exact h

theorem head_dropWhile_not_space (l : List Char) (c : Char) (r : List Char)
    (h : l.dropWhile isSpaceChar = c :: r) : c ≠ ' ' := by
  induction l with
  | nil => cases h
  | cons a as ih =>
    rw [List.dropWhile_cons] at h
    cases ha : isSpaceChar a with
    | true => rw [ha] at h; simp at h; exact ih h
    | false =>
      rw [ha] at h
      simp at h
      intro he
      rw [h.1, he] at ha
      simp [isSpaceChar] at ha

theorem dropWhile_eq_self_of_head (l : List Char) (h1 : l ≠ [])
    (h2 : l.head? ≠ some ' ') : l.dropWhile isSpaceChar = l := by
  cases l with
  | nil => rfl
  | cons c r =>
    have hc : c ≠ ' ' := by
      intro he
      exact h2 (by rw [he]; rfl)
    rw [List.dropWhile_cons, isSpaceChar_eq_false c hc]
    simp

theorem matchMut_isSome_iff (l : List Char) :
    (matchMut l).isSome = true ↔
      ∃ base sp, l = base ++ sp ++ ['*'] ∧ base ≠ [] ∧
        base.getLast? ≠ some ' ' ∧ ∀ c ∈ sp, c = ' ' := by
  constructor
  · intro h
    unfold matchMut at h
    cases hrev : l.reverse with
    | nil => rw [hrev] at h; simp at h
    | cons c r =>
      rw [hrev] at h
      simp only [] at h
      by_cases hc : c = '*'
      · subst hc
        simp only [if_true] at h
        cases hdw : r.dropWhile isSpaceChar with
        | nil => rw [hdw] at h; simp at h
        | cons c0 r0 =>
          refine ⟨(c0 :: r0).reverse, (r.takeWhile isSpaceChar).reverse, ?_, by simp, ?_, ?_⟩
          · have hl : l = r.reverse ++ ['*'] := by
              have h5 := congrArg List.reverse hrev
              simpa using h5
            rw [hl]
            have hr : r = r.takeWhile isSpaceChar ++ (c0 :: r0) := by
              rw [← hdw]
              exact (List.takeWhile_append_dropWhile _ _).symm
            rw [show r.reverse = (c0 :: r0).reverse ++ (r.takeWhile isSpaceChar).reverse from by
              rw [show r.reverse = (r.takeWhile isSpaceChar ++ (c0 :: r0)).reverse from by rw [← hr]]
              simp]
          · rw [List.getLast?_reverse]
            intro he
            simp only [List.head?_cons, Option.some.injEq] at he
            exact head_dropWhile_not_space r c0 r0 hdw he
          · intro x hx
            have hx2 : x ∈ r.takeWhile isSpaceChar := by simpa using hx
            have := List.mem_takeWhile_imp hx2
            simpa [isSpaceChar] using this
      · rw [if_neg hc] at h
        simp at h
  · rintro ⟨base, sp, rfl, hb, hlast, hsp⟩
    unfold matchMut
    have hrev : (base ++ sp ++ ['*']).reverse =
        '*' :: (sp.reverse ++ base.reverse) := by simp
    rw [hrev]
    simp only [if_true]
    rw [dropWhile_append_all_spaces sp.reverse base.reverse
      (fun c hc => hsp c (by simpa using hc))]
    rw [dropWhile_reverse_eq base hlast]
    have hbne : base.reverse ≠ [] := by simpa using hb
    simp [List.isEmpty_iff, hbne]

theorem matchConst2_wrapMut_none (l : List Char)
    (h5 : ¬ (['c', 'o', 'n', 's', 't', ' '] <+: l)) :
    matchConst2 (l ++ ['*']) = none := by
  unfold matchConst2
  by_cases hp : constTok.isPrefixOf (l ++ ['*']) = true
  · have hpre : constTok <+: l ++ ['*'] := List.isPrefixOf_iff_prefix.1 hp
    by_cases hlen : 5 ≤ l.length
    · have htake : constTok = l.take 5 := by
        have h6 := List.prefix_iff_eq_take.1 hpre
        rw [show constTok.length = 5 from rfl] at h6
        rw [h6, List.take_append_eq_append_take,
          show (5 - l.length) = 0 by omega]
        simp
      have hdrop : (l ++ ['*']).drop 5 = l.drop 5 ++ ['*'] := by
        rw [List.drop_append_eq_append_drop, show (5 - l.length) = 0 by omega]
        simp
      rw [if_pos hp, hdrop]
      cases hd5 : l.drop 5 with
      | nil => simp
      | cons c r =>
        simp only [List.cons_append]
        by_cases hc : c = ' '
        · exfalso
          apply h5
          have hl : l = constTok ++ (' ' :: r) := by
            rw [← hc, ← hd5, htake]
            exact (List.take_append_drop 5 l).symm
          rw [hl]
          exact ⟨r, by simp [constTok]⟩
        · simp [hc]
    · exfalso
      have hlen2 : 5 ≤ l.length + 1 := by
        have h7 := hpre.length_le
        simpa [constTok] using h7
      have hlen3 : l.length = 4 := by omega
      have heq : constTok = l ++ ['*'] := by
        refine hpre.eq_of_length ?_
        simp [constTok, hlen3]
      have hmem : ('*' : Char) ∈ constTok := by
        rw [heq]
        simp
      simp [constTok] at hmem
  · simp [hp]

theorem matchConst1_wrapPre_none (l : List Char) (h1 : l ≠ [])
    (h2 : l.getLast? ≠ some ' ')
    (h3 : ¬ ([' ', 'c', 'o', 'n', 's', 't'] <:+ l))
    (h4 : l ≠ ['c', 'o', 'n', 's', 't']) :
    matchConst1 (['c', 'o', 'n', 's', 't', ' '] ++ l ++ ['*']) = none := by
  unfold matchConst1
  have hrw : ((['c', 'o', 'n', 's', 't', ' '] ++ l ++ ['*']) : List Char).reverse =
      '*' :: (l.reverse ++ [' ', 't', 's', 'n', 'o', 'c']) := by
    simp
  rw [hrw]
  simp only []
  have hdne : l.reverse.dropWhile isSpaceChar ≠ [] := by
    rw [dropWhile_reverse_eq l h2]
    simpa using h1
  have hd : (l.reverse ++ [' ', 't', 's', 'n', 'o', 'c']).dropWhile isSpaceChar =
      l.reverse ++ [' ', 't', 's', 'n', 'o', 'c'] := by
    rw [dropWhile_append_of_ne_nil _ _ hdne, dropWhile_reverse_eq l h2]
  simp only [if_true, hd]
  by_cases hp : constTokRev.isPrefixOf (l.reverse ++ [' ', 't', 's', 'n', 'o', 'c']) = true
  · have hpre : constTokRev <+: l.reverse ++ [' ', 't', 's', 'n', 'o', 'c'] :=
      List.isPrefixOf_iff_prefix.1 hp
    by_cases hlen : 5 ≤ l.length
    · have htake : constTokRev = l.reverse.take 5 := by
        have h6 := List.prefix_iff_eq_take.1 hpre
        rw [show constTokRev.length = 5 from rfl] at h6
        rw [h6, List.take_append_eq_append_take,
          show (5 - l.reverse.length) = 0 by simp; omega]
        simp
      have hpre2 : constTokRev <+: l.reverse := by
        rw [List.prefix_iff_eq_take]
        exact htake
      have hsuf : (['c', 'o', 'n', 's', 't'] : List Char) <:+ l := by
        rw [← List.reverse_prefix]
        exact hpre2
      obtain ⟨pre, hpre3⟩ := hsuf
      have hl : l = pre ++ ['c', 'o', 'n', 's', 't'] := hpre3.symm
      subst hl
      have hrev2 : ((pre ++ ['c', 'o', 'n', 's', 't'] : List Char)).reverse =
          constTokRev ++ pre.reverse := by
        simp [constTokRev]
      rw [hrev2]
      have hdrop : ((constTokRev ++ pre.reverse) ++
          [' ', 't', 's', 'n', 'o', 'c']).drop 5 =
          pre.reverse ++ [' ', 't', 's', 'n', 'o', 'c'] := by
        rw [List.append_assoc, show (5 : Nat) = constTokRev.length from rfl,
          List.drop_left]
      rw [if_pos (by rw [hrev2, List.append_assoc] at hp; rw [List.append_assoc]; exact hp),
        hdrop]
      cases hpr : pre.reverse with
      | nil =>
        exfalso
        apply h4
        have : pre = [] := by simpa using congrArg List.reverse hpr
        simp [this]
      | cons c4 r4 =>
        simp only [List.cons_append]
        by_cases hc4 : c4 = ' '
        · exfalso
          apply h3
          have hpre4 : pre = r4.reverse ++ [' '] := by
            have h6 := congrArg List.reverse hpr
            simpa [hc4] using h6
          rw [hpre4]
          exact ⟨r4.reverse, by simp⟩
        · simp [hc4]
    · exfalso
      have htake : constTokRev = (l.reverse ++ [' ', 't', 's', 'n', 'o', 'c']).take 5 := by
        have h6 := List.prefix_iff_eq_take.1 hpre
        rwa [show constTokRev.length = 5 from rfl] at h6
      have hmem : (' ' : Char) ∈ constTokRev := by
        rw [htake, List.take_append_eq_append_take]
        apply List.mem_append_right
        have hk : 1 ≤ 5 - l.reverse.length := by simp; omega
        cases hk5 : 5 - l.reverse.length with
        | zero => omega
        | succ k => simp
      simp [constTokRev] at hmem
  · simp [hp]

theorem matchConst2_wrapPre_some (l : List Char) (h1 : l ≠ [])
    (hh : l.head? ≠ some ' ') (h2 : l.getLast? ≠ some ' ')
    (hs : l.getLast? ≠ some '*') :
    matchConst2 (['c', 'o', 'n', 's', 't', ' '] ++ l ++ ['*']) = some l := by
  unfold matchConst2
  have hp : constTok.isPrefixOf (['c', 'o', 'n', 's', 't', ' '] ++ l ++ ['*']) = true := by
    rw [List.isPrefixOf_iff_prefix]
    exact ⟨' ' :: (l ++ ['*']), by simp [constTok]⟩
  rw [if_pos hp]
  have hdrop : ((['c', 'o', 'n', 's', 't', ' '] ++ l ++ ['*']) : List Char).drop 5 =
      ' ' :: (l ++ ['*']) := by
    simp
  rw [hdrop]
  simp only [if_true]
  have hdl : l.dropWhile isSpaceChar ≠ [] := by
    rw [dropWhile_eq_self_of_head l h1 hh]
    exact h1
  have hr1 : (l ++ ['*']).dropWhile isSpaceChar = l ++ ['*'] := by
    rw [dropWhile_append_of_ne_nil _ _ hdl, dropWhile_eq_self_of_head l h1 hh]
  rw [hr1]
  have hrev : (l ++ ['*']).reverse = '*' :: l.reverse := by simp
  rw [hrev]
  simp only [if_true]
  rw [dropWhile_reverse_eq l h2]
  cases hlr : l.reverse with
  | nil => exact absurd (by simpa using hlr) h1
  | cons c0 r0 =>
    have hc0 : c0 ≠ '*' := by
      intro he
      apply hs
      rw [List.getLast?_eq_head?_reverse, hlr, he]
      rfl
    simp only [if_neg hc0]
    rw [show (c0 :: r0).reverse = l from by rw [← hlr]; simp]

theorem matchMut_isSome_of_const1 (l : List Char) (d : List Char)
    (h : matchConst1 l = some d) : (matchMut l).isSome = true := by
  unfold matchConst1 at h
  unfold matchMut
  cases hrev : l.reverse with
  | nil => rw [hrev] at h; simp at h
  | cons c r =>
    rw [hrev] at h
    simp only [] at h
    by_cases hc : c = '*'
    · subst hc
      simp only [if_true] at h ⊢
      by_cases hp : constTokRev.isPrefixOf (r.dropWhile isSpaceChar) = true
      · have hpre : constTokRev <+: r.dropWhile isSpaceChar :=
          List.isPrefixOf_iff_prefix.1 hp
        have hlen := hpre.length_le
        have hne : r.dropWhile isSpaceChar ≠ [] := by
          intro he
          rw [he] at hlen
          simp [constTokRev] at hlen
        simp [List.isEmpty_iff, hne]
      · rw [if_neg hp] at h
        cases h
    · rw [if_neg hc] at h
      cases h

theorem matchMut_isSome_of_const2 (l : List Char) (d : List Char)
    (h : matchConst2 l = some d) : (matchMut l).isSome = true := by
  unfold matchConst2 at h
  by_cases hp : constTok.isPrefixOf l = true
  · rw [if_pos hp] at h
    cases hd5 : l.drop 5 with
    | nil => rw [hd5] at h; cases h
    | cons c r =>
      rw [hd5] at h
      simp only [] at h
      by_cases hc : c = ' '
      · subst hc
        simp only [if_true] at h
        cases hrev : (r.dropWhile isSpaceChar).reverse with
        | nil => rw [hrev] at h; cases h
        | cons c2 r2 =>
          rw [hrev] at h
          simp only [] at h
          by_cases hc2 : c2 = '*'
          · subst hc2
            simp only [if_true] at h
            cases hdw : r2.dropWhile isSpaceChar with
            | nil => rw [hdw] at h; cases h
            | cons c3 r3 =>
              rw [hdw] at h
              simp only [] at h
              by_cases hc3 : c3 = '*'
              · rw [if_pos hc3] at h
                cases h
              · rw [matchMut_isSome_iff]
                have hc3s : c3 ≠ ' ' := head_dropWhile_not_space r2 c3 r3 hdw
                have hr1 : r.dropWhile isSpaceChar = (r2.reverse) ++ ['*'] := by
                  have h6 := congrArg List.reverse hrev
                  simpa using h6
                have hr2 : r2 = r2.takeWhile isSpaceChar ++ (c3 :: r3) := by
                  rw [← hdw]
                  exact (List.takeWhile_append_dropWhile _ _).symm
                have hl : l = constTok ++ (' ' :: r) := by
                  rw [← hd5]
                  have htake : constTok = l.take 5 := by
                    have h7 := List.prefix_iff_eq_take.1 (List.isPrefixOf_iff_prefix.1 hp)
                    rwa [show constTok.length = 5 from rfl] at h7
                  rw [htake]
                  exact (List.take_append_drop 5 l).symm
                have hr : r = r.takeWhile isSpaceChar ++ r.dropWhile isSpaceChar :=
                  (List.takeWhile_append_dropWhile _ _).symm
                have hrev2 : r2.reverse =
                    (c3 :: r3).reverse ++ (r2.takeWhile isSpaceChar).reverse := by
                  conv_lhs => rw [hr2]
                  simp
                refine ⟨constTok ++ (' ' :: (r.takeWhile isSpaceChar ++ (c3 :: r3).reverse)),
                  (r2.takeWhile isSpaceChar).reverse, ?_, by simp, ?_, ?_⟩
                · rw [hl]
                  conv_lhs => rw [← List.takeWhile_append_dropWhile isSpaceChar r]
                  rw [hr1, hrev2]
                  simp
                · have hb : constTok ++ (' ' :: (r.takeWhile isSpaceChar ++ (c3 :: r3).reverse)) =
                      (constTok ++ ' ' :: (r.takeWhile isSpaceChar ++ r3.reverse)) ++ [c3] := by
                    simp
                  rw [hb, List.getLast?_concat]
                  intro he
                  exact hc3s (by simpa using he)
                · intro x hx
                  have hx2 : x ∈ r2.takeWhile isSpaceChar := by simpa using hx
                  have := List.mem_takeWhile_imp hx2
                  simpa [isSpaceChar] using this
          · rw [if_neg hc2] at h
            cases h
      · rw [if_neg hc] at h
        cases h
  · rw [if_neg hp] at h
    cases h

theorem matchConst1_wrapPost (l : List Char) (h1 : l ≠ [])
    (h2 : l.getLast? ≠ some ' ') :
    matchConst1 (l ++ [' ', 'c', 'o', 'n', 's', 't', ' ', '*']) = some l := by
  unfold matchConst1
  have hrw : (l ++ [' ', 'c', 'o', 'n', 's', 't', ' ', '*']).reverse =
      '*' :: ' ' :: 't' :: 's' :: 'n' :: 'o' :: 'c' :: ' ' :: l.reverse := by
    simp
  rw [hrw]
  have hne : l.reverse ≠ [] := by simpa using h1
  simp [List.isPrefixOf, constTokRev, isSpaceChar,
    dropWhile_reverse_eq l h2, List.isEmpty_iff, hne]

/-- Reconstruction of a string from its character data. -/
theorem strMk_data (s : String) : (⟨s.data⟩ : String) = s := by
  cases s
  rfl

/-- C7: pointer wrap/unwrap round trip — for every plain C type spelling
(nonempty, not beginning or ending with a space, not ending in a star, not
ending in a const token and not beginning with one, and newline-free, the
shapes of actual base ctype strings), unwrapping the wrapped mutable form
yields the mutable tag and exactly the original string, and unwrapping either
wrapped const form yields the const tag and exactly the original string. -/
theorem c7_pointer_round_trip :
    ∀ t : String,
      t.data ≠ [] →
      t.data.getLast? ≠ some ' ' →
      t.data.head? ≠ some ' ' →
      t.data.getLast? ≠ some '*' →
      ¬ ([' ', 'c', 'o', 'n', 's', 't'] <:+ t.data) →
      ¬ (['c', 'o', 'n', 's', 't', ' '] <+: t.data) →
      t.data ≠ ['c', 'o', 'n', 's', 't'] →
      '\n' ∉ t.data →
      unwrapPointerCtype (wrapPointerMut t) true = .ok ("*mut ", t) ∧
      unwrapPointerCtype (wrapPointerConstPre t) true = .ok ("*const ", t) ∧
      unwrapPointerCtype (wrapPointerConstPost t) true = .ok ("*const ", t) := by
  intro t h1 h2 hh hs hsuf hpre hconst _hnl
  refine ⟨?_, ?_, ?_⟩
  · unfold unwrapPointerCtype wrapPointerMut
    have hd : (t ++ "*").data = t.data ++ ['*'] := by
      rw [String.data_append]
      try rfl
    rw [hd, matchConst1_wrapMut_none t.data h2 hsuf hconst,
      matchConst2_wrapMut_none t.data hpre,
      matchMut_wrap t.data h1 h2]
    try simp [strMk_data]
  · unfold unwrapPointerCtype wrapPointerConstPre
    have hd : ("const " ++ t ++ "*").data =
        ['c', 'o', 'n', 's', 't', ' '] ++ t.data ++ ['*'] := by
      rw [String.data_append, String.data_append]
      try rfl
    rw [hd, matchConst1_wrapPre_none t.data h1 h2 hsuf hconst,
      matchConst2_wrapPre_some t.data h1 hh h2 hs]
    try simp [strMk_data]
  · unfold unwrapPointerCtype wrapPointerConstPost
    have hd : (t ++ " const *").data =
        t.data ++ [' ', 'c', 'o', 'n', 's', 't', ' ', '*'] := by
      rw [String.data_append]
      try rfl
    rw [hd, matchConst1_wrapPost t.data h1 h2]
    try simp [strMk_data]

/-- C7 witness: the round trip at the base ctype GObject. -/
theorem c7_pointer_round_trip_witness :
    unwrapPointerCtype (wrapPointerMut ("GObject")) true =
      .ok ("*mut ", "GObject") ∧
    unwrapPointerCtype (wrapPointerConstPre ("GObject")) true =
      .ok ("*const ", "GObject") ∧
    unwrapPointerCtype (wrapPointerConstPost ("GObject")) true =
      .ok ("*const ", "GObject") := by
  exact c7_pointer_round_trip ("GObject") (by decide) (by decide) (by decide)
    (by decide) (by decide) (by decide) (by decide) (by decide)

/-- No ctype string matches only a const-pointer form: every string matched by
either const-pointer pattern is also matched by the bare pointer pattern, so
a const-only match is impossible. -/
theorem constOnlyMatch_empty (s : String) : ¬ constOnlyMatch s := by
  rintro ⟨hc, hm⟩
  cases hc with
  | inl h1 =>
    cases hc1 : matchConst1 s.data with
    | none => rw [hc1] at h1; simp at h1
    | some d =>
      have hsome := matchMut_isSome_of_const1 s.data d hc1
      rw [hm] at hsome
      simp at hsome
  | inr h2 =>
    cases hc2 : matchConst2 s.data with
    | none => rw [hc2] at h2; simp at h2
    | some d =>
      have hsome := matchMut_isSome_of_const2 s.data d hc2
      rw [hm] at hsome
      simp at hsome

/-- _unwrap_pointer_ctype raises a mapping error exactly when the bare
trailing-pointer pattern fails to match, for either value of allow_const. -/
theorem unwrapPointer_error_iff_matchMut_none (s : String) (ac : Bool) :
    (∃ e, unwrapPointerCtype s ac = .error e) ↔ matchMut s.data = none := by
  unfold unwrapPointerCtype
  cases ac with
  | false =>
    cases hm : matchMut s.data with
    | none => simp [hm]
    | some d => simp [hm]
  | true =>
    cases hc1 : matchConst1 s.data with
    | some d =>
      have hsome := matchMut_isSome_of_const1 s.data d hc1
      have hne : matchMut s.data ≠ none := by
        intro h
        rw [h] at hsome
        simp at hsome
      simp [hc1, hne]
    | none =>
      cases hc2 : matchConst2 s.data with
      | some d =>
        have hsome := matchMut_isSome_of_const2 s.data d hc2
        have hne : matchMut s.data ≠ none := by
          intro h
          rw [h] at hsome
          simp at hsome
        simp [hc1, hc2, hne]
      | none =>
        cases hm : matchMut s.data with
        | none => simp [hc1, hc2, hm]
        | some d => simp [hc1, hc2, hm]

/-- C8: _unwrap_pointer_ctype matches exactly one trailing pointer layer and
raises a mapping error exactly when the ctype has no trailing pointer layer
or when allow_const is false and only a const-pointer form matches; the
second disjunct is vacuous, because every string matched by a const-pointer
pattern also matches the bare pointer pattern (with allow_const false the
const layer is then silently folded into the dereferenced base rather than
rejected).  Concretely: T const * and const T * classify as const pointers,
a bare T * as a mutable pointer, a double pointer loses only its outermost
layer, and a pointerless ctype raises the pointer-syntax error of the
respective mode.  Under _unwrap_call_signature_ctype, an out or inout
parameter whose caller does not allocate has its ctype unwrapped with
allow_const false, errors prefixed with the parameter name, and the volatile
qualifier stripped from the dereferenced base. -/
theorem c8_unwrap_pointer_error_contract :
    (∀ (s : String) (ac : Bool),
        (∃ e, unwrapPointerCtype s ac = .error e) ↔
          (¬ hasTrailingPointerLayer s ∨ (ac = false ∧ constOnlyMatch s))) ∧
    (∀ s : String, ¬ constOnlyMatch s) ∧
    (unwrapPointerCtype ("GObject const *") true = .ok ("*const ", "GObject") ∧
     unwrapPointerCtype ("const GObject *") true = .ok ("*const ", "GObject") ∧
     unwrapPointerCtype ("GObject *") true = .ok ("*mut ", "GObject") ∧
     unwrapPointerCtype ("GObject **") true = .ok ("*mut ", "GObject *") ∧
     unwrapPointerCtype ("GObject") true =
       .error ("expected pointer syntax in C type GObject") ∧
     unwrapPointerCtype ("GObject") false =
       .error ("expected non-const pointer syntax in C type GObject")) ∧
    (∀ (p : GParameter) (ct : String),
        p.ptype.ctypeOf = some ct →
        (p.direction = .dirOut ∨ p.direction = .dirInout) →
        p.callerAllocates = false →
        unwrapCallSignatureCtype (.par p) =
          match unwrapPointerCtype ct false with
          | .ok (pre, base) => .ok (pre, stripVolatile base)
          | .error e => .error ("parameter " ++ p.argname ++ ": " ++ e)) := by
  refine ⟨?_, constOnlyMatch_empty, ⟨?_, ?_, ?_, ?_, ?_, ?_⟩, ?_⟩
  · intro s ac
    rw [unwrapPointer_error_iff_matchMut_none]
    constructor
    · intro hm
      left
      intro hl
      have hsome := (matchMut_isSome_iff s.data).2 hl
      rw [hm] at hsome
      simp at hsome
    · rintro (hl | ⟨_, hco⟩)
      · cases hmm : matchMut s.data with
        | none => rfl
        | some d =>
          exact absurd ((matchMut_isSome_iff s.data).1 (by rw [hmm]; rfl)) hl
      · exact absurd hco (constOnlyMatch_empty s)
  · decide
  · decide
  · decide
  · decide
  · decide
  · decide
  · intro p ct hct hdir hca
    simp only [unwrapCallSignatureCtype, TypeContainer.typeOf, hct]
    rw [if_pos ⟨hdir, hca⟩]

/-- C8 witness: a concrete out-parameter with caller-allocates false has its
double-pointer ctype unwrapped by one mutable layer, and a pointerless
out-parameter receives the name-prefixed non-const error. -/
theorem c8_unwrap_pointer_error_contract_witness :
    unwrapCallSignatureCtype
        (.par (⟨"out_obj", .base none none (some "GObject **"),
                .dirOut, false, false⟩ : GParameter)) =
      .ok ("*mut ", "GObject *") ∧
    ((∃ e, unwrapPointerCtype ("GObject") true = .error e) ↔
      (¬ hasTrailingPointerLayer ("GObject") ∨
        (true = false ∧ constOnlyMatch ("GObject")))) := by
  constructor
  · have h := c8_unwrap_pointer_error_contract.2.2.2
        (⟨"out_obj", .base none none (some "GObject **"),
          .dirOut, false, false⟩ : GParameter)
        ("GObject **") rfl (Or.inl rfl) rfl
    rw [h]
    decide
  · exact c8_unwrap_pointer_error_contract.1 ("GObject") true
